import Mathlib

/-!
# Watermark buffer (`pkg/network/buffer/watermarkbuffer.go`)

A shallow embedding of the `WatermarkBuffer` of the MOSN network layer: a byte
buffer wrapper that tells a listener when the occupancy of the wrapped buffer
goes above a high watermark and when it later falls below a low watermark.

Conventions of the embedding.

* Go's `int` (the result of `Len()`, counts, offsets) is `Int`; `uint32` values
  are `Nat`, and the conversion `uint32(x)` is written out as reduction modulo
  `2^32`.
* A Go method with a pointer receiver becomes a function that takes the
  receiver's state and returns the new state, paired with the values the method
  returns.
* The listener is an interface value; its state is the record of the calls it
  has received.  A listener that re-enters the buffer from inside a
  notification is outside the embedding.
-/

namespace Buffer

/-! ## Collaborators declared outside the source file -/

/-- The two entry points of `types.BufferWatermarkListener`. -/
inductive Notification where
  | OnHighWatermark
  | OnLowWatermark
deriving DecidableEq, Repr

/-- Modelled from the spec: `types.BufferWatermarkListener` is an interface of
the `types` package, whose declaration is not part of the source file.  The
spec gives it two zero-argument, zero-result entry points invoked
synchronously; a listener is represented by the calls it has received, oldest
first. -/
structure BufferWatermarkListener where
  delivered : List Notification
deriving DecidableEq, Repr

/-- The listener after one `OnHighWatermark()` call. -/
def BufferWatermarkListener.OnHighWatermark (l : BufferWatermarkListener) :
    BufferWatermarkListener :=
  ⟨l.delivered ++ [Notification.OnHighWatermark]⟩

/-- The listener after one `OnLowWatermark()` call. -/
def BufferWatermarkListener.OnLowWatermark (l : BufferWatermarkListener) :
    BufferWatermarkListener :=
  ⟨l.delivered ++ [Notification.OnLowWatermark]⟩

/-- A listener that has not been called yet. -/
def BufferWatermarkListener.fresh : BufferWatermarkListener := ⟨[]⟩

/-- Modelled from the spec: the embedded `IoBuffer` struct and its methods live
in another file of the package, which is not part of the source file.  Section
6 of the spec lists the operations the watermark layer consumes and leaves
their byte-level behaviour to the collaborator, so the wrapped buffer is a
parameter: a state type and one arbitrary function per method, each returning
the buffer's next state and the values the Go method returns.  `empty` and
`ofBytes` stand for the two struct literals of the constructors
(`buf: make([]byte, 0, capacity)` and `buf: []byte(s)`, both with
`offMark: ResetOffMark`).  What a call does to its arguments (the bytes copied
into `p`, the reader or writer consumed) is not observed by the watermark layer
and is not represented. -/
structure IoBufferOps where
  Buf : Type
  Reader : Type
  Writer : Type
  Err : Type
  empty : Int → Buf
  ofBytes : List UInt8 → Buf
  Len : Buf → Int
  Read : Buf → List UInt8 → Buf × (Int × Option Err)
  ReadOnce : Buf → Reader → Buf × (Int × Option Err)
  ReadFrom : Buf → Reader → Buf × (Int × Option Err)
  Write : Buf → List UInt8 → Buf × (Int × Option Err)
  WriteTo : Buf → Writer → Buf × (Int × Option Err)
  Append : Buf → List UInt8 → Buf × Option Err
  AppendByte : Buf → UInt8 → Buf × Option Err
  Cut : Buf → Int → Buf × Option Buf
  Drain : Buf → Int → Buf
  Reset : Buf → Buf

/-- The Go conversion `uint32(x)` of an `int`: the low 32 bits. -/
def uint32 (x : Int) : Nat := (x % 4294967296).toNat

/-! ## The source file -/

/-- The struct `WatermarkBuffer`: the embedded `IoBuffer`, the two thresholds,
the flag and the listener. -/
structure WatermarkBuffer (M : IoBufferOps) where
  IoBuffer : M.Buf
  highWatermark : Nat
  lowWatermark : Nat
  aboveHighWatermarkCalled : Bool
  watermarkListener : BufferWatermarkListener

namespace WatermarkBuffer

variable {M : IoBufferOps}

/-- The promoted method `b.Len()` of the embedded buffer. -/
def Len (b : WatermarkBuffer M) : Int := M.Len b.IoBuffer

/-- The method `checkLowWatermark`. -/
def checkLowWatermark (b : WatermarkBuffer M) : WatermarkBuffer M :=
  if !b.aboveHighWatermarkCalled ||
      (decide (b.highWatermark > 0) && decide (uint32 b.Len ≥ b.lowWatermark)) then
    b
  else
    { b with
      aboveHighWatermarkCalled := false
      watermarkListener := b.watermarkListener.OnLowWatermark }

/-- The method `checkHighWatermark`. -/
def checkHighWatermark (b : WatermarkBuffer M) : WatermarkBuffer M :=
  if b.aboveHighWatermarkCalled || decide (b.highWatermark = 0) ||
      decide (uint32 b.Len ≤ b.highWatermark) then
    b
  else
    { b with
      aboveHighWatermarkCalled := true
      watermarkListener := b.watermarkListener.OnHighWatermark }

/-- The method `Read`. -/
def Read (b : WatermarkBuffer M) (p : List UInt8) :
    WatermarkBuffer M × (Int × Option M.Err) :=
  let r := M.Read b.IoBuffer p
  (checkLowWatermark { b with IoBuffer := r.1 }, r.2)

/-- The method `ReadOnce`. -/
def ReadOnce (b : WatermarkBuffer M) (r : M.Reader) :
    WatermarkBuffer M × (Int × Option M.Err) :=
  let x := M.ReadOnce b.IoBuffer r
  (checkHighWatermark { b with IoBuffer := x.1 }, x.2)

/-- The method `ReadFrom`. -/
def ReadFrom (b : WatermarkBuffer M) (r : M.Reader) :
    WatermarkBuffer M × (Int × Option M.Err) :=
  let x := M.ReadFrom b.IoBuffer r
  (checkHighWatermark { b with IoBuffer := x.1 }, x.2)

/-- The method `Write`. -/
def Write (b : WatermarkBuffer M) (p : List UInt8) :
    WatermarkBuffer M × (Int × Option M.Err) :=
  let r := M.Write b.IoBuffer p
  (checkHighWatermark { b with IoBuffer := r.1 }, r.2)

/-- The method `WriteTo`. -/
def WriteTo (b : WatermarkBuffer M) (w : M.Writer) :
    WatermarkBuffer M × (Int × Option M.Err) :=
  let r := M.WriteTo b.IoBuffer w
  (checkLowWatermark { b with IoBuffer := r.1 }, r.2)

/-- The method `Append`. -/
def Append (b : WatermarkBuffer M) (data : List UInt8) :
    WatermarkBuffer M × Option M.Err :=
  let r := M.Append b.IoBuffer data
  (checkHighWatermark { b with IoBuffer := r.1 }, r.2)

/-- The method `AppendByte`. -/
def AppendByte (b : WatermarkBuffer M) (data : UInt8) :
    WatermarkBuffer M × Option M.Err :=
  let r := M.AppendByte b.IoBuffer data
  (checkHighWatermark { b with IoBuffer := r.1 }, r.2)

/-- The method `Cut`. -/
def Cut (b : WatermarkBuffer M) (offset : Int) :
    WatermarkBuffer M × Option M.Buf :=
  let r := M.Cut b.IoBuffer offset
  (checkLowWatermark { b with IoBuffer := r.1 }, r.2)

/-- The method `Drain`. -/
def Drain (b : WatermarkBuffer M) (offset : Int) : WatermarkBuffer M :=
  checkLowWatermark { b with IoBuffer := M.Drain b.IoBuffer offset }

/-- The method `Reset`. -/
def Reset (b : WatermarkBuffer M) : WatermarkBuffer M :=
  checkLowWatermark { b with IoBuffer := M.Reset b.IoBuffer }

/-- The method `SetWaterMarks`. -/
def SetWaterMarks (b : WatermarkBuffer M) (lowWatermark highWatermark : Nat) :
    WatermarkBuffer M :=
  { b with lowWatermark := lowWatermark, highWatermark := highWatermark }

/-- The method `SetWaterMark`; `/` is the truncating division of `uint32`. -/
def SetWaterMark (b : WatermarkBuffer M) (watermark : Nat) : WatermarkBuffer M :=
  b.SetWaterMarks (watermark / 2) watermark

end WatermarkBuffer

/-- The constructor `NewWatermarkBuffer`: the fields the struct literal does not
name take Go's zero values. -/
def NewWatermarkBuffer (M : IoBufferOps) (capacity : Int)
    (listener : BufferWatermarkListener) : WatermarkBuffer M :=
  { IoBuffer := M.empty capacity
    highWatermark := 0
    lowWatermark := 0
    aboveHighWatermarkCalled := false
    watermarkListener := listener }

/-- The constructor `NewWatermarkBufferString`; a Go string is its bytes. -/
def NewWatermarkBufferString (M : IoBufferOps) (s : List UInt8)
    (listener : BufferWatermarkListener) : WatermarkBuffer M :=
  { IoBuffer := M.ofBytes s
    highWatermark := 0
    lowWatermark := 0
    aboveHighWatermarkCalled := false
    watermarkListener := listener }

/-- The constructor `NewWatermarkBufferBytes`. -/
def NewWatermarkBufferBytes (M : IoBufferOps) (bytes : List UInt8)
    (listener : BufferWatermarkListener) : WatermarkBuffer M :=
  { IoBuffer := M.ofBytes bytes
    highWatermark := 0
    lowWatermark := 0
    aboveHighWatermarkCalled := false
    watermarkListener := listener }

/-! ## Calls and call sequences -/

/-- One call of one of the ten mutating methods, with its arguments. -/
inductive Op (M : IoBufferOps) where
  | Read (p : List UInt8)
  | ReadOnce (r : M.Reader)
  | ReadFrom (r : M.Reader)
  | Write (p : List UInt8)
  | WriteTo (w : M.Writer)
  | Append (data : List UInt8)
  | AppendByte (data : UInt8)
  | Cut (offset : Int)
  | Drain (offset : Int)
  | Reset

/-- What a mutating method hands back to its caller: a count and an error, an
error alone, the buffer cut off (possibly nil), or nothing. -/
inductive Ret (M : IoBufferOps) where
  | countErr (n : Int) (err : Option M.Err)
  | err (e : Option M.Err)
  | buffer (b : Option M.Buf)
  | unit

/-- The five methods followed by `checkHighWatermark` in the source. -/
def Op.isGrowth {M : IoBufferOps} : Op M → Bool
  | .ReadOnce _ | .ReadFrom _ | .Write _ | .Append _ | .AppendByte _ => true
  | _ => false

/-- The five methods followed by `checkLowWatermark` in the source. -/
def Op.isShrink {M : IoBufferOps} : Op M → Bool
  | .Read _ | .WriteTo _ | .Cut _ | .Drain _ | .Reset => true
  | _ => false

/-- A call of the public surface: a mutating method or a configuration
method. -/
inductive Call (M : IoBufferOps) where
  | op (o : Op M)
  | SetWaterMark (watermark : Nat)
  | SetWaterMarks (lowWatermark highWatermark : Nat)

namespace WatermarkBuffer

variable {M : IoBufferOps}

/-- Dispatch of a mutating call to the method of the source. -/
def call (b : WatermarkBuffer M) : Op M → WatermarkBuffer M × Ret M
  | .Read p => ((b.Read p).1, .countErr (b.Read p).2.1 (b.Read p).2.2)
  | .ReadOnce r => ((b.ReadOnce r).1, .countErr (b.ReadOnce r).2.1 (b.ReadOnce r).2.2)
  | .ReadFrom r => ((b.ReadFrom r).1, .countErr (b.ReadFrom r).2.1 (b.ReadFrom r).2.2)
  | .Write p => ((b.Write p).1, .countErr (b.Write p).2.1 (b.Write p).2.2)
  | .WriteTo w => ((b.WriteTo w).1, .countErr (b.WriteTo w).2.1 (b.WriteTo w).2.2)
  | .Append data => ((b.Append data).1, .err (b.Append data).2)
  | .AppendByte data => ((b.AppendByte data).1, .err (b.AppendByte data).2)
  | .Cut offset => ((b.Cut offset).1, .buffer (b.Cut offset).2)
  | .Drain offset => (b.Drain offset, .unit)
  | .Reset => (b.Reset, .unit)

/-- The state after one call of the public surface. -/
def step (b : WatermarkBuffer M) : Call M → WatermarkBuffer M
  | .op o => (b.call o).1
  | .SetWaterMark w => b.SetWaterMark w
  | .SetWaterMarks lo hi => b.SetWaterMarks lo hi

/-- The state after a sequence of calls, made one after the other. -/
def run (b : WatermarkBuffer M) : List (Call M) → WatermarkBuffer M
  | [] => b
  | c :: cs => (b.step c).run cs

/-- The state after a sequence of mutating calls. -/
def runOps (b : WatermarkBuffer M) : List (Op M) → WatermarkBuffer M
  | [] => b
  | o :: os => (b.call o).1.runOps os

/-- The notifications the listener has received so far. -/
def delivered (b : WatermarkBuffer M) : List Notification :=
  b.watermarkListener.delivered

end WatermarkBuffer

/-! ## The operation table of the spec -/

/-- The two checks named in the "Check after" column. -/
inductive Check where
  | low
  | high
deriving DecidableEq, Repr

/-- The "Check after" column of the operation table of section 4.1, row by
row. -/
def Op.checkAfter {M : IoBufferOps} : Op M → Check
  | .Read _ => .low
  | .ReadOnce _ => .high
  | .ReadFrom _ => .high
  | .Write _ => .high
  | .WriteTo _ => .low
  | .Append _ => .high
  | .AppendByte _ => .high
  | .Cut _ => .low
  | .Drain _ => .low
  | .Reset => .low

/-- The wrapped buffer's own operation of the same name: its next state and
what it returns. -/
def IoBufferOps.delegate (M : IoBufferOps) (buf : M.Buf) : Op M → M.Buf × Ret M
  | .Read p => ((M.Read buf p).1, .countErr (M.Read buf p).2.1 (M.Read buf p).2.2)
  | .ReadOnce r => ((M.ReadOnce buf r).1, .countErr (M.ReadOnce buf r).2.1 (M.ReadOnce buf r).2.2)
  | .ReadFrom r => ((M.ReadFrom buf r).1, .countErr (M.ReadFrom buf r).2.1 (M.ReadFrom buf r).2.2)
  | .Write p => ((M.Write buf p).1, .countErr (M.Write buf p).2.1 (M.Write buf p).2.2)
  | .WriteTo w => ((M.WriteTo buf w).1, .countErr (M.WriteTo buf w).2.1 (M.WriteTo buf w).2.2)
  | .Append data => ((M.Append buf data).1, .err (M.Append buf data).2)
  | .AppendByte data => ((M.AppendByte buf data).1, .err (M.AppendByte buf data).2)
  | .Cut offset => ((M.Cut buf offset).1, .buffer (M.Cut buf offset).2)
  | .Drain offset => (M.Drain buf offset, .unit)
  | .Reset => (M.Reset buf, .unit)

/-- The check a table entry stands for. -/
def WatermarkBuffer.runCheck {M : IoBufferOps} (b : WatermarkBuffer M) :
    Check → WatermarkBuffer M
  | .low => b.checkLowWatermark
  | .high => b.checkHighWatermark

/-- The contract of section 4.1, in the spec's words: (a) perform the wrapped
buffer's operation, (b) run the one check of the table on the state it leaves,
(c) return the delegated result untouched. -/
def WatermarkBuffer.tableCall {M : IoBufferOps} (b : WatermarkBuffer M) (o : Op M) :
    WatermarkBuffer M × Ret M :=
  (WatermarkBuffer.runCheck { b with IoBuffer := (M.delegate b.IoBuffer o).1 } o.checkAfter,
    (M.delegate b.IoBuffer o).2)

/-! ## A concrete wrapped buffer -/

/-- Modelled from the spec: one wrapped buffer to run the methods on, described
by its occupancy alone (the number of bytes held), with the "Delegated effect"
column of section 4.1 read on the occupancy: reading removes from the front
what fits in the destination, the appending operations add the length of what
they are given, `WriteTo` and `Reset` leave nothing, `Cut` and `Drain` remove a
prefix of `offset` bytes when the buffer holds that many.  A reader is the
chunk it supplies. -/
def occupancyBuffer : IoBufferOps where
  Buf := Int
  Reader := List UInt8
  Writer := Unit
  Err := Unit
  empty := fun _ => 0
  ofBytes := fun bytes => bytes.length
  Len := fun n => n
  Read := fun n p => (n - min (p.length : Int) n, (min (p.length : Int) n, none))
  ReadOnce := fun n r => (n + r.length, (r.length, none))
  ReadFrom := fun n r => (n + r.length, (r.length, none))
  Write := fun n p => (n + p.length, (p.length, none))
  WriteTo := fun n _ => (0, (n, none))
  Append := fun n data => (n + data.length, none)
  AppendByte := fun n _ => (n + 1, none)
  Cut := fun n offset => if 0 ≤ offset ∧ offset ≤ n then (n - offset, some offset) else (n, none)
  Drain := fun n offset => if 0 ≤ offset ∧ offset ≤ n then n - offset else n
  Reset := fun _ => 0

/-- A state of the watermark buffer over `occupancyBuffer`, field by field. -/
def stateOf (occupancy : Int) (low high : Nat) (flag : Bool)
    (delivered : List Notification) : WatermarkBuffer occupancyBuffer :=
  { IoBuffer := occupancy
    highWatermark := high
    lowWatermark := low
    aboveHighWatermarkCalled := flag
    watermarkListener := ⟨delivered⟩ }

/-! ## Predicates on states and call sequences -/

namespace WatermarkBuffer

variable {M : IoBufferOps}

/-- The flag mirrors the listener: it is set exactly when the last notification
delivered is `OnHighWatermark`. -/
def FlagMirrorsListener (b : WatermarkBuffer M) : Prop :=
  b.aboveHighWatermarkCalled = true ↔
    (b.delivered ≠ [] ∧ b.delivered.getLast? = some Notification.OnHighWatermark)

/-- The occupancy `Len()` is a value of 32 bits. -/
def Fits (b : WatermarkBuffer M) : Prop := 0 ≤ b.Len ∧ b.Len < 4294967296

instance decidableFits (b : WatermarkBuffer M) : Decidable b.Fits :=
  inferInstanceAs (Decidable (0 ≤ b.Len ∧ b.Len < 4294967296))

/-- After each call of the sequence the occupancy fits in 32 bits. -/
def FitsAfterEach (b : WatermarkBuffer M) : List (Op M) → Prop
  | [] => True
  | o :: os => (b.call o).1.Fits ∧ FitsAfterEach (b.call o).1 os

/-- After each call of the sequence the occupancy is above `highWatermark`. -/
def AboveHighAfterEach (b : WatermarkBuffer M) : List (Op M) → Prop
  | [] => True
  | o :: os =>
    ((b.call o).1.highWatermark : Int) < (b.call o).1.Len ∧ AboveHighAfterEach (b.call o).1 os

/-- After each call of the sequence the occupancy is at least `lowWatermark`. -/
def AtLeastLowAfterEach (b : WatermarkBuffer M) : List (Op M) → Prop
  | [] => True
  | o :: os =>
    ((b.call o).1.lowWatermark : Int) ≤ (b.call o).1.Len ∧ AtLeastLowAfterEach (b.call o).1 os

/-- The low check as the design notes of the spec describe the tempting
simplification: the `highWatermark > 0` guard is dropped and only
`length ≥ lowWatermark` is tested.  It is not in the source; it is what the
source is compared with. -/
def checkLowWatermarkSimplified (b : WatermarkBuffer M) : WatermarkBuffer M :=
  if !b.aboveHighWatermarkCalled || decide (uint32 b.Len ≥ b.lowWatermark) then
    b
  else
    { b with
      aboveHighWatermarkCalled := false
      watermarkListener := b.watermarkListener.OnLowWatermark }

end WatermarkBuffer

/-- The other notification. -/
def Notification.other : Notification → Notification
  | .OnHighWatermark => .OnLowWatermark
  | .OnLowWatermark => .OnHighWatermark

/-- The list strictly alternates between the two notifications and, when it is
not empty, starts with `first`. -/
def alternatesFrom (first : Notification) : List Notification → Bool
  | [] => true
  | x :: xs => decide (x = first) && alternatesFrom first.other xs

/-- Built by one of the three constructors with a listener that has received
nothing. -/
def FreshlyConstructed {M : IoBufferOps} (b : WatermarkBuffer M) : Prop :=
  (∃ capacity : Int, b = NewWatermarkBuffer M capacity BufferWatermarkListener.fresh) ∨
  (∃ s : List UInt8, b = NewWatermarkBufferString M s BufferWatermarkListener.fresh) ∨
  (∃ bytes : List UInt8, b = NewWatermarkBufferBytes M bytes BufferWatermarkListener.fresh)

/-- The state of an edge-triggered listener: the notifications delivered
alternate starting with `OnHighWatermark`, the flag is set exactly when their
number is odd, and the high notifications outnumber the low ones by one when
the flag is set and by none when it is clear. -/
def EdgeTriggered {M : IoBufferOps} (b : WatermarkBuffer M) : Prop :=
  alternatesFrom Notification.OnHighWatermark b.delivered = true ∧
  (b.aboveHighWatermarkCalled = true ↔ b.delivered.length % 2 = 1) ∧
  b.delivered.count Notification.OnHighWatermark =
    b.delivered.count Notification.OnLowWatermark +
      (if b.aboveHighWatermarkCalled = true then 1 else 0)

/-! ## The two checks -/

namespace WatermarkBuffer

variable {M : IoBufferOps}

theorem uint32_of_fits {x : Int} (h0 : 0 ≤ x) (h1 : x < 4294967296) :
    (uint32 x : Int) = x := by
  unfold uint32
  rw [Int.emod_eq_of_lt h0 h1]
  exact Int.toNat_of_nonneg h0

theorem uint32_le_iff {x : Int} (h0 : 0 ≤ x) (h1 : x < 4294967296) (n : Nat) :
    uint32 x ≤ n ↔ x ≤ (n : Int) := by
  have h := uint32_of_fits h0 h1
  omega

theorem uint32_ge_iff {x : Int} (h0 : 0 ≤ x) (h1 : x < 4294967296) (n : Nat) :
    uint32 x ≥ n ↔ (n : Int) ≤ x := by
  have h := uint32_of_fits h0 h1
  omega

/-- When `checkHighWatermark` fires, in terms of what the code compares. -/
theorem checkHighWatermark_fire (b : WatermarkBuffer M)
    (h : b.aboveHighWatermarkCalled = false ∧ b.highWatermark ≠ 0 ∧
      b.highWatermark < uint32 b.Len) :
    b.checkHighWatermark =
      { b with
        aboveHighWatermarkCalled := true
        watermarkListener := b.watermarkListener.OnHighWatermark } := by
  obtain ⟨h1, h2, h3⟩ := h
  unfold checkHighWatermark
  rw [if_neg]
  simp [h1, h2, h3]

/-- When `checkHighWatermark` returns early. -/
theorem checkHighWatermark_skip (b : WatermarkBuffer M)
    (h : ¬ (b.aboveHighWatermarkCalled = false ∧ b.highWatermark ≠ 0 ∧
      b.highWatermark < uint32 b.Len)) :
    b.checkHighWatermark = b := by
  unfold checkHighWatermark
  rw [if_pos]
  simp only [Bool.or_eq_true, decide_eq_true_eq]
  by_cases h1 : b.aboveHighWatermarkCalled = true
  · exact Or.inl (Or.inl h1)
  · by_cases h2 : b.highWatermark = 0
    · exact Or.inl (Or.inr h2)
    · right
      have h1' : b.aboveHighWatermarkCalled = false := by simpa using h1
      by_contra h3
      exact h ⟨h1', h2, by omega⟩

/-- When `checkLowWatermark` fires, in terms of what the code compares. -/
theorem checkLowWatermark_fire (b : WatermarkBuffer M)
    (h : b.aboveHighWatermarkCalled = true ∧
      ¬ (b.highWatermark > 0 ∧ uint32 b.Len ≥ b.lowWatermark)) :
    b.checkLowWatermark =
      { b with
        aboveHighWatermarkCalled := false
        watermarkListener := b.watermarkListener.OnLowWatermark } := by
  obtain ⟨h1, h2⟩ := h
  unfold checkLowWatermark
  rw [if_neg]
  simp only [h1, Bool.not_true, Bool.false_or, Bool.and_eq_true, decide_eq_true_eq]
  exact h2

/-- When `checkLowWatermark` returns early. -/
theorem checkLowWatermark_skip (b : WatermarkBuffer M)
    (h : b.aboveHighWatermarkCalled = false ∨
      (b.highWatermark > 0 ∧ uint32 b.Len ≥ b.lowWatermark)) :
    b.checkLowWatermark = b := by
  unfold checkLowWatermark
  rw [if_pos]
  simp only [Bool.or_eq_true, Bool.not_eq_true', Bool.and_eq_true, decide_eq_true_eq]
  exact h

/-- C1. `checkHighWatermark`, on every state whose occupancy fits in 32 bits:
it delivers `OnHighWatermark` and sets the flag exactly when the flag was
false, `highWatermark` is not 0 and the length is strictly greater than
`highWatermark`; otherwise it changes nothing.  It delivers no
`OnLowWatermark` and leaves the thresholds and the wrapped buffer alone. -/
theorem checkHighWatermark_contract (b : WatermarkBuffer M)
    (hfit : 0 ≤ b.Len ∧ b.Len < 4294967296) :
    ((b.checkHighWatermark.delivered = b.delivered ++ [Notification.OnHighWatermark] ∧
        b.checkHighWatermark.aboveHighWatermarkCalled = true) ↔
      (b.aboveHighWatermarkCalled = false ∧ b.highWatermark ≠ 0 ∧
        (b.highWatermark : Int) < b.Len)) ∧
    ((b.aboveHighWatermarkCalled = false ∧ b.highWatermark ≠ 0 ∧
        (b.highWatermark : Int) < b.Len) →
      b.checkHighWatermark =
        { b with
          aboveHighWatermarkCalled := true
          watermarkListener := b.watermarkListener.OnHighWatermark }) ∧
    (¬ (b.aboveHighWatermarkCalled = false ∧ b.highWatermark ≠ 0 ∧
        (b.highWatermark : Int) < b.Len) →
      b.checkHighWatermark = b) ∧
    (b.checkHighWatermark.delivered = b.delivered ∨
      b.checkHighWatermark.delivered = b.delivered ++ [Notification.OnHighWatermark]) ∧
    b.checkHighWatermark.IoBuffer = b.IoBuffer ∧
    b.checkHighWatermark.lowWatermark = b.lowWatermark ∧
    b.checkHighWatermark.highWatermark = b.highWatermark := by
  obtain ⟨h0, h1⟩ := hfit
  have hlt : b.highWatermark < uint32 b.Len ↔ (b.highWatermark : Int) < b.Len := by
    have h := uint32_of_fits h0 h1
    omega
  by_cases hc : b.aboveHighWatermarkCalled = false ∧ b.highWatermark ≠ 0 ∧
      (b.highWatermark : Int) < b.Len
  · have hf := checkHighWatermark_fire b ⟨hc.1, hc.2.1, hlt.mpr hc.2.2⟩
    refine ⟨⟨fun _ => hc, fun _ => ?_⟩, fun _ => hf, fun hn => absurd hc hn, ?_, ?_, ?_, ?_⟩
    · rw [hf]; exact ⟨rfl, rfl⟩
    · right; rw [hf]; rfl
    · rw [hf]
    · rw [hf]
    · rw [hf]
  · have hs := checkHighWatermark_skip b (fun h => hc ⟨h.1, h.2.1, hlt.mp h.2.2⟩)
    refine ⟨⟨fun h => ?_, fun h => absurd h hc⟩, fun h => absurd h hc, fun _ => hs, ?_, ?_, ?_, ?_⟩
    · rw [hs] at h
      have := congrArg List.length h.1
      simp at this
    · left; rw [hs]
    · rw [hs]
    · rw [hs]
    · rw [hs]

/-- Witness of C1: occupancy 11 with thresholds (5, 10) and the flag clear. -/
theorem checkHighWatermark_contract_witness :
    (0 ≤ (stateOf 11 5 10 false []).Len ∧ (stateOf 11 5 10 false []).Len < 4294967296) ∧
    (stateOf 11 5 10 false []).checkHighWatermark.delivered = [Notification.OnHighWatermark] ∧
    (stateOf 11 5 10 false []).checkHighWatermark.aboveHighWatermarkCalled = true :=
  ⟨by decide,
    ((checkHighWatermark_contract (stateOf 11 5 10 false []) (by decide)).1.mpr
      (by decide))⟩

/-- C2. `checkLowWatermark`, on every state whose occupancy fits in 32 bits: it
changes nothing when the flag is false, and nothing when `highWatermark > 0`
and the length is at least `lowWatermark`; in every other case it clears the
flag and delivers `OnLowWatermark` once.  It delivers no `OnHighWatermark` and
leaves the thresholds and the wrapped buffer alone. -/
theorem checkLowWatermark_contract (b : WatermarkBuffer M)
    (hfit : 0 ≤ b.Len ∧ b.Len < 4294967296) :
    (b.aboveHighWatermarkCalled = false → b.checkLowWatermark = b) ∧
    (b.highWatermark > 0 ∧ (b.lowWatermark : Int) ≤ b.Len → b.checkLowWatermark = b) ∧
    (¬ b.aboveHighWatermarkCalled = false ∧
        ¬ (b.highWatermark > 0 ∧ (b.lowWatermark : Int) ≤ b.Len) →
      b.checkLowWatermark =
          { b with
            aboveHighWatermarkCalled := false
            watermarkListener := b.watermarkListener.OnLowWatermark } ∧
        b.checkLowWatermark.aboveHighWatermarkCalled = false ∧
        b.checkLowWatermark.delivered = b.delivered ++ [Notification.OnLowWatermark]) ∧
    (b.checkLowWatermark.delivered = b.delivered ∨
      b.checkLowWatermark.delivered = b.delivered ++ [Notification.OnLowWatermark]) ∧
    b.checkLowWatermark.IoBuffer = b.IoBuffer ∧
    b.checkLowWatermark.lowWatermark = b.lowWatermark ∧
    b.checkLowWatermark.highWatermark = b.highWatermark := by
  obtain ⟨h0, h1⟩ := hfit
  have hge : uint32 b.Len ≥ b.lowWatermark ↔ (b.lowWatermark : Int) ≤ b.Len :=
    uint32_ge_iff h0 h1 _
  by_cases hc : b.aboveHighWatermarkCalled = false ∨
      (b.highWatermark > 0 ∧ (b.lowWatermark : Int) ≤ b.Len)
  · have hs : b.checkLowWatermark = b :=
      checkLowWatermark_skip b (hc.imp id (fun h => ⟨h.1, hge.mpr h.2⟩))
    refine ⟨fun _ => hs, fun _ => hs, fun h => ?_, ?_, ?_, ?_, ?_⟩
    · exact absurd hc (not_or.mpr h)
    · left; rw [hs]
    · rw [hs]
    · rw [hs]
    · rw [hs]
  · obtain ⟨hc1, hc2⟩ := not_or.mp hc
    have hflag : b.aboveHighWatermarkCalled = true := by simpa using hc1
    have hf := checkLowWatermark_fire b ⟨hflag, fun h => hc2 ⟨h.1, hge.mp h.2⟩⟩
    refine ⟨fun h => absurd h hc1, fun h => absurd h hc2, fun _ => ⟨hf, ?_, ?_⟩, ?_, ?_, ?_, ?_⟩
    · rw [hf]
    · rw [hf]; rfl
    · right; rw [hf]; rfl
    · rw [hf]
    · rw [hf]
    · rw [hf]

/-- Witness of C2: occupancy 4 with thresholds (5, 10) and the flag set. -/
theorem checkLowWatermark_contract_witness :
    (0 ≤ (stateOf 4 5 10 true [Notification.OnHighWatermark]).Len ∧
      (stateOf 4 5 10 true [Notification.OnHighWatermark]).Len < 4294967296) ∧
    (stateOf 4 5 10 true [Notification.OnHighWatermark]).checkLowWatermark.aboveHighWatermarkCalled
      = false ∧
    (stateOf 4 5 10 true [Notification.OnHighWatermark]).checkLowWatermark.delivered =
      [Notification.OnHighWatermark, Notification.OnLowWatermark] :=
  ⟨by decide,
    ((checkLowWatermark_contract (stateOf 4 5 10 true [Notification.OnHighWatermark])
      (by decide)).2.2.1 (by decide)).2⟩

/-! ## What one call can do to the flag and the listener -/

/-- The code path of `checkHighWatermark`, whatever the length: either nothing
changes, or the flag was clear and is set with one `OnHighWatermark`. -/
theorem checkHighWatermark_cases (b : WatermarkBuffer M) :
    b.checkHighWatermark = b ∨
    (b.aboveHighWatermarkCalled = false ∧ b.highWatermark ≠ 0 ∧
      b.checkHighWatermark =
        { b with
          aboveHighWatermarkCalled := true
          watermarkListener := b.watermarkListener.OnHighWatermark }) := by
  by_cases h : b.aboveHighWatermarkCalled = false ∧ b.highWatermark ≠ 0 ∧
      b.highWatermark < uint32 b.Len
  · exact Or.inr ⟨h.1, h.2.1, checkHighWatermark_fire b h⟩
  · exact Or.inl (checkHighWatermark_skip b h)

/-- The code path of `checkLowWatermark`, whatever the length: either nothing
changes, or the flag was set and is cleared with one `OnLowWatermark`. -/
theorem checkLowWatermark_cases (b : WatermarkBuffer M) :
    b.checkLowWatermark = b ∨
    (b.aboveHighWatermarkCalled = true ∧
      b.checkLowWatermark =
        { b with
          aboveHighWatermarkCalled := false
          watermarkListener := b.watermarkListener.OnLowWatermark }) := by
  by_cases h : b.aboveHighWatermarkCalled = false ∨
      (b.highWatermark > 0 ∧ uint32 b.Len ≥ b.lowWatermark)
  · exact Or.inl (checkLowWatermark_skip b h)
  · obtain ⟨h1, h2⟩ := not_or.mp h
    have hflag : b.aboveHighWatermarkCalled = true := by simpa using h1
    exact Or.inr ⟨hflag, checkLowWatermark_fire b ⟨hflag, h2⟩⟩

/-- Every mutating method is the wrapped method followed by the check of the
table. -/
theorem call_eq_tableCall (b : WatermarkBuffer M) (o : Op M) :
    b.call o = b.tableCall o := by
  cases o <;> rfl

/-- The state a mutating call leaves, as a check run on the delegated state. -/
theorem call_state (b : WatermarkBuffer M) (o : Op M) :
    (b.call o).1 =
      WatermarkBuffer.runCheck { b with IoBuffer := (M.delegate b.IoBuffer o).1 }
        o.checkAfter := by
  rw [call_eq_tableCall]; rfl

theorem checkAfter_of_isGrowth {o : Op M} (h : o.isGrowth = true) :
    o.checkAfter = Check.high := by
  cases o <;> simp [Op.isGrowth] at h <;> rfl

theorem checkAfter_of_isShrink {o : Op M} (h : o.isShrink = true) :
    o.checkAfter = Check.low := by
  cases o <;> simp [Op.isShrink] at h <;> rfl

theorem flagMirrors_checkHighWatermark (b : WatermarkBuffer M)
    (h : FlagMirrorsListener b) : FlagMirrorsListener b.checkHighWatermark := by
  rcases checkHighWatermark_cases b with hs | ⟨_, _, hf⟩
  · rw [hs]; exact h
  · rw [hf]
    simp [FlagMirrorsListener, delivered, BufferWatermarkListener.OnHighWatermark]

theorem flagMirrors_checkLowWatermark (b : WatermarkBuffer M)
    (h : FlagMirrorsListener b) : FlagMirrorsListener b.checkLowWatermark := by
  rcases checkLowWatermark_cases b with hs | ⟨_, hf⟩
  · rw [hs]; exact h
  · rw [hf]
    simp [FlagMirrorsListener, delivered, BufferWatermarkListener.OnLowWatermark]

theorem flagMirrors_step (b : WatermarkBuffer M) (c : Call M)
    (h : FlagMirrorsListener b) : FlagMirrorsListener (b.step c) := by
  cases c with
  | op o =>
    show FlagMirrorsListener (b.call o).1
    rw [call_state]
    have h' : FlagMirrorsListener
        ({ b with IoBuffer := (M.delegate b.IoBuffer o).1 } : WatermarkBuffer M) := h
    cases o.checkAfter
    · exact flagMirrors_checkLowWatermark _ h'
    · exact flagMirrors_checkHighWatermark _ h'
  | SetWaterMark w => exact h
  | SetWaterMarks lo hi => exact h

theorem flagMirrors_run (cs : List (Call M)) (b : WatermarkBuffer M)
    (h : FlagMirrorsListener b) : FlagMirrorsListener (b.run cs) := by
  induction cs generalizing b with
  | nil => exact h
  | cons c cs ih => exact ih _ (flagMirrors_step b c h)

/-- C3. Flag invariant: from a buffer built by any of the three constructors
with a listener that has received nothing, after every finite sequence of calls
of the ten mutating methods, `SetWaterMark` and `SetWaterMarks`, over any
wrapped buffer, the flag is true if and only if at least one notification has
been delivered and the last one delivered is `OnHighWatermark`. -/
theorem flag_invariant (M : IoBufferOps) (cs : List (Call M)) :
    (∀ capacity : Int,
      ((NewWatermarkBuffer M capacity BufferWatermarkListener.fresh).run
          cs).aboveHighWatermarkCalled = true ↔
        (((NewWatermarkBuffer M capacity BufferWatermarkListener.fresh).run cs).delivered ≠ [] ∧
          ((NewWatermarkBuffer M capacity BufferWatermarkListener.fresh).run
            cs).delivered.getLast? = some Notification.OnHighWatermark)) ∧
    (∀ s : List UInt8,
      ((NewWatermarkBufferString M s BufferWatermarkListener.fresh).run
          cs).aboveHighWatermarkCalled = true ↔
        (((NewWatermarkBufferString M s BufferWatermarkListener.fresh).run cs).delivered ≠ [] ∧
          ((NewWatermarkBufferString M s BufferWatermarkListener.fresh).run
            cs).delivered.getLast? = some Notification.OnHighWatermark)) ∧
    (∀ bytes : List UInt8,
      ((NewWatermarkBufferBytes M bytes BufferWatermarkListener.fresh).run
          cs).aboveHighWatermarkCalled = true ↔
        (((NewWatermarkBufferBytes M bytes BufferWatermarkListener.fresh).run
            cs).delivered ≠ [] ∧
          ((NewWatermarkBufferBytes M bytes BufferWatermarkListener.fresh).run
            cs).delivered.getLast? = some Notification.OnHighWatermark)) := by
  refine ⟨fun capacity => ?_, fun s => ?_, fun bytes => ?_⟩
  · exact flagMirrors_run cs _
      (by simp [FlagMirrorsListener, NewWatermarkBuffer, delivered,
        BufferWatermarkListener.fresh])
  · exact flagMirrors_run cs _
      (by simp [FlagMirrorsListener, NewWatermarkBufferString, delivered,
        BufferWatermarkListener.fresh])
  · exact flagMirrors_run cs _
      (by simp [FlagMirrorsListener, NewWatermarkBufferBytes, delivered,
        BufferWatermarkListener.fresh])

/-! ## Frame of the checks and of the calls -/

theorem checkHighWatermark_frame (b : WatermarkBuffer M) :
    b.checkHighWatermark.IoBuffer = b.IoBuffer ∧
    b.checkHighWatermark.lowWatermark = b.lowWatermark ∧
    b.checkHighWatermark.highWatermark = b.highWatermark := by
  rcases checkHighWatermark_cases b with hs | ⟨_, _, hf⟩
  · rw [hs]; exact ⟨rfl, rfl, rfl⟩
  · rw [hf]; exact ⟨rfl, rfl, rfl⟩

theorem checkLowWatermark_frame (b : WatermarkBuffer M) :
    b.checkLowWatermark.IoBuffer = b.IoBuffer ∧
    b.checkLowWatermark.lowWatermark = b.lowWatermark ∧
    b.checkLowWatermark.highWatermark = b.highWatermark := by
  rcases checkLowWatermark_cases b with hs | ⟨_, hf⟩
  · rw [hs]; exact ⟨rfl, rfl, rfl⟩
  · rw [hf]; exact ⟨rfl, rfl, rfl⟩

/-- A mutating call leaves the wrapped buffer as the wrapped method left it and
keeps the thresholds. -/
theorem call_frame (b : WatermarkBuffer M) (o : Op M) :
    (b.call o).1.IoBuffer = (M.delegate b.IoBuffer o).1 ∧
    (b.call o).1.lowWatermark = b.lowWatermark ∧
    (b.call o).1.highWatermark = b.highWatermark := by
  rw [call_state]
  cases o.checkAfter
  · exact checkLowWatermark_frame _
  · exact checkHighWatermark_frame _

/-- A growth call on a state with the flag set only moves the wrapped
buffer. -/
theorem growth_call_of_flag_set (b : WatermarkBuffer M) (o : Op M)
    (hg : o.isGrowth = true) (hflag : b.aboveHighWatermarkCalled = true) :
    (b.call o).1 = { b with IoBuffer := (M.delegate b.IoBuffer o).1 } := by
  rw [call_state, checkAfter_of_isGrowth hg]
  exact checkHighWatermark_skip _ (fun h => by
    have h1 : b.aboveHighWatermarkCalled = false := h.1
    rw [hflag] at h1
    exact Bool.noConfusion h1)

/-- Growth calls on a state with the flag set deliver nothing. -/
theorem growth_run_of_flag_set (os : List (Op M)) (b : WatermarkBuffer M)
    (hg : ∀ o ∈ os, o.isGrowth = true) (hflag : b.aboveHighWatermarkCalled = true) :
    (b.runOps os).delivered = b.delivered ∧
    (b.runOps os).aboveHighWatermarkCalled = true := by
  induction os generalizing b with
  | nil => exact ⟨rfl, hflag⟩
  | cons o os ih =>
    have h1 := growth_call_of_flag_set b o (hg o (List.mem_cons_self _ _)) hflag
    have h2 := ih (b.call o).1 (fun x hx => hg x (List.mem_cons_of_mem _ hx))
      (by rw [h1]; exact hflag)
    refine ⟨?_, h2.2⟩
    show ((b.call o).1.runOps os).delivered = b.delivered
    rw [h2.1, h1]
    rfl

/-- A growth call on a state with the flag clear and checking enabled, when the
occupancy it leaves fits in 32 bits and is above `highWatermark`, delivers
`OnHighWatermark` and sets the flag. -/
theorem growth_call_fires (b : WatermarkBuffer M) (o : Op M)
    (hg : o.isGrowth = true) (hhigh : 0 < b.highWatermark)
    (hflag : b.aboveHighWatermarkCalled = false)
    (hfit : (b.call o).1.Fits)
    (habove : ((b.call o).1.highWatermark : Int) < (b.call o).1.Len) :
    (b.call o).1.delivered = b.delivered ++ [Notification.OnHighWatermark] ∧
    (b.call o).1.aboveHighWatermarkCalled = true := by
  have hfr := call_frame b o
  have hlen : (b.call o).1.Len = M.Len (M.delegate b.IoBuffer o).1 := by
    unfold Len; rw [hfr.1]
  rw [hfr.2.2, hlen] at habove
  unfold Fits at hfit
  rw [hlen] at hfit
  have hu := uint32_of_fits hfit.1 hfit.2
  have hfire := checkHighWatermark_fire
    ({ b with IoBuffer := (M.delegate b.IoBuffer o).1 } : WatermarkBuffer M)
    ⟨hflag, by show b.highWatermark ≠ 0; omega, by
      show b.highWatermark < uint32 (M.Len (M.delegate b.IoBuffer o).1); omega⟩
  rw [call_state, checkAfter_of_isGrowth hg]
  show (checkHighWatermark _).delivered = _ ∧ (checkHighWatermark _).aboveHighWatermarkCalled = _
  rw [hfire]
  exact ⟨rfl, rfl⟩

/-- Debounce, for occupancies that fit in 32 bits: from a state with checking
enabled and the flag clear, a non-empty sequence of growth calls after each of
which the occupancy is above `highWatermark` delivers `OnHighWatermark` once,
by its first call, and nothing else. -/
theorem debounce_of_fits (b : WatermarkBuffer M) (o : Op M) (os : List (Op M))
    (hg : ∀ x ∈ o :: os, x.isGrowth = true) (hhigh : 0 < b.highWatermark)
    (hflag : b.aboveHighWatermarkCalled = false)
    (hfit : b.FitsAfterEach (o :: os))
    (habove : b.AboveHighAfterEach (o :: os)) :
    (b.call o).1.delivered = b.delivered ++ [Notification.OnHighWatermark] ∧
    (b.runOps (o :: os)).delivered = b.delivered ++ [Notification.OnHighWatermark] := by
  have h1 := growth_call_fires b o (hg o (List.mem_cons_self _ _)) hhigh hflag hfit.1 habove.1
  have h2 := growth_run_of_flag_set os (b.call o).1
    (fun x hx => hg x (List.mem_cons_of_mem _ hx)) h1.2
  refine ⟨h1.1, ?_⟩
  show ((b.call o).1.runOps os).delivered = _
  rw [h2.1, h1.1]

/-- The debounce statement at work: thresholds (5, 10), an empty buffer, then a
write of eleven bytes and two more single bytes. -/
theorem debounce_of_fits_example :
    ((stateOf 0 5 10 false []).runOps
      [Op.Write [0, 1, 2, 3, 4, 5, 6, 7, 8, 9, 10], Op.AppendByte 11,
        Op.AppendByte 12]).delivered = [Notification.OnHighWatermark] :=
  (debounce_of_fits (stateOf 0 5 10 false [])
    (Op.Write [0, 1, 2, 3, 4, 5, 6, 7, 8, 9, 10]) [Op.AppendByte 11, Op.AppendByte 12]
    (by decide) (by decide) (by decide)
    ⟨by decide, by decide, by decide, trivial⟩
    ⟨by decide, by decide, by decide, trivial⟩).2

/-- C4. The code at a state the claim covers: thresholds (5, 10), the flag
clear, 4294967295 bytes held, and the one-call sequence `AppendByte`.  The
hypotheses of the debounce claim hold (checking enabled, no high notification
outstanding, a growth call, occupancy 4294967296 above `highWatermark` after
it), and no `OnHighWatermark` is delivered: `uint32` of the length is 0. -/
theorem debounce_fails_at_4GiB :
    0 < (stateOf 4294967295 5 10 false []).highWatermark ∧
    (stateOf 4294967295 5 10 false []).aboveHighWatermarkCalled = false ∧
    (Op.AppendByte 0 : Op occupancyBuffer).isGrowth = true ∧
    (stateOf 4294967295 5 10 false []).AboveHighAfterEach [Op.AppendByte 0] ∧
    ((stateOf 4294967295 5 10 false []).call (Op.AppendByte 0)).1.Len = 4294967296 ∧
    uint32 ((stateOf 4294967295 5 10 false []).call (Op.AppendByte 0)).1.Len = 0 ∧
    ((stateOf 4294967295 5 10 false []).runOps [Op.AppendByte 0]).delivered = [] ∧
    ((stateOf 4294967295 5 10 false []).runOps [Op.AppendByte 0]).aboveHighWatermarkCalled
      = false := by
  refine ⟨by decide, by decide, by decide, ⟨by decide, trivial⟩, by decide, by decide,
    by decide, by decide⟩

/-! ## Shrink calls -/

theorem runOps_append (xs ys : List (Op M)) (b : WatermarkBuffer M) :
    b.runOps (xs ++ ys) = (b.runOps xs).runOps ys := by
  induction xs generalizing b with
  | nil => rfl
  | cons x xs ih => exact ih (b.call x).1

/-- A shrink call on a state with the flag clear only moves the wrapped
buffer. -/
theorem shrink_call_of_flag_clear (b : WatermarkBuffer M) (o : Op M)
    (hs : o.isShrink = true) (hflag : b.aboveHighWatermarkCalled = false) :
    (b.call o).1 = { b with IoBuffer := (M.delegate b.IoBuffer o).1 } := by
  rw [call_state, checkAfter_of_isShrink hs]
  exact checkLowWatermark_skip _ (Or.inl hflag)

/-- Shrink calls on a state with the flag clear deliver nothing. -/
theorem shrink_run_of_flag_clear (os : List (Op M)) (b : WatermarkBuffer M)
    (hs : ∀ o ∈ os, o.isShrink = true) (hflag : b.aboveHighWatermarkCalled = false) :
    (b.runOps os).delivered = b.delivered ∧
    (b.runOps os).aboveHighWatermarkCalled = false := by
  induction os generalizing b with
  | nil => exact ⟨rfl, hflag⟩
  | cons o os ih =>
    have h1 := shrink_call_of_flag_clear b o (hs o (List.mem_cons_self _ _)) hflag
    have h2 := ih (b.call o).1 (fun x hx => hs x (List.mem_cons_of_mem _ hx))
      (by rw [h1]; exact hflag)
    refine ⟨?_, h2.2⟩
    show ((b.call o).1.runOps os).delivered = b.delivered
    rw [h2.1, h1]
    rfl

/-- A shrink call with checking enabled that leaves an occupancy of 32 bits at
or above `lowWatermark` only moves the wrapped buffer. -/
theorem shrink_call_holds (b : WatermarkBuffer M) (o : Op M)
    (hs : o.isShrink = true) (hhigh : 0 < b.highWatermark)
    (hfit : (b.call o).1.Fits)
    (hlow : ((b.call o).1.lowWatermark : Int) ≤ (b.call o).1.Len) :
    (b.call o).1 = { b with IoBuffer := (M.delegate b.IoBuffer o).1 } := by
  have hfr := call_frame b o
  have hlen : (b.call o).1.Len = M.Len (M.delegate b.IoBuffer o).1 := by
    unfold Len; rw [hfr.1]
  rw [hfr.2.1, hlen] at hlow
  unfold Fits at hfit
  rw [hlen] at hfit
  have hu := uint32_of_fits hfit.1 hfit.2
  rw [call_state, checkAfter_of_isShrink hs]
  exact checkLowWatermark_skip _ (Or.inr ⟨hhigh, by
    show uint32 (M.Len (M.delegate b.IoBuffer o).1) ≥ b.lowWatermark; omega⟩)

/-- A shrink call on a state with the flag set that leaves an occupancy of 32
bits strictly below `lowWatermark` delivers `OnLowWatermark` and clears the
flag. -/
theorem shrink_call_fires (b : WatermarkBuffer M) (o : Op M)
    (hs : o.isShrink = true) (hflag : b.aboveHighWatermarkCalled = true)
    (hfit : (b.call o).1.Fits)
    (hlow : (b.call o).1.Len < ((b.call o).1.lowWatermark : Int)) :
    (b.call o).1.delivered = b.delivered ++ [Notification.OnLowWatermark] ∧
    (b.call o).1.aboveHighWatermarkCalled = false := by
  have hfr := call_frame b o
  have hlen : (b.call o).1.Len = M.Len (M.delegate b.IoBuffer o).1 := by
    unfold Len; rw [hfr.1]
  rw [hfr.2.1, hlen] at hlow
  unfold Fits at hfit
  rw [hlen] at hfit
  have hu := uint32_of_fits hfit.1 hfit.2
  have hfire := checkLowWatermark_fire
    ({ b with IoBuffer := (M.delegate b.IoBuffer o).1 } : WatermarkBuffer M)
    ⟨hflag, fun h => by
      have h2 : uint32 (M.Len (M.delegate b.IoBuffer o).1) ≥ b.lowWatermark := h.2
      omega⟩
  rw [call_state, checkAfter_of_isShrink hs]
  show (checkLowWatermark _).delivered = _ ∧ (checkLowWatermark _).aboveHighWatermarkCalled = _
  rw [hfire]
  exact ⟨rfl, rfl⟩

/-- Shrink calls with checking enabled, each leaving an occupancy of 32 bits at
or above `lowWatermark`, deliver nothing and keep flag and thresholds. -/
theorem shrink_run_holds (os : List (Op M)) (b : WatermarkBuffer M)
    (hs : ∀ o ∈ os, o.isShrink = true) (hhigh : 0 < b.highWatermark)
    (hfit : b.FitsAfterEach os) (hlow : b.AtLeastLowAfterEach os) :
    (b.runOps os).delivered = b.delivered ∧
    (b.runOps os).aboveHighWatermarkCalled = b.aboveHighWatermarkCalled ∧
    (b.runOps os).highWatermark = b.highWatermark ∧
    (b.runOps os).lowWatermark = b.lowWatermark := by
  induction os generalizing b with
  | nil => exact ⟨rfl, rfl, rfl, rfl⟩
  | cons o os ih =>
    have h1 := shrink_call_holds b o (hs o (List.mem_cons_self _ _)) hhigh hfit.1 hlow.1
    have h2 := ih (b.call o).1 (fun x hx => hs x (List.mem_cons_of_mem _ hx))
      (by rw [h1]; exact hhigh) hfit.2 hlow.2
    show ((b.call o).1.runOps os).delivered = _ ∧
      ((b.call o).1.runOps os).aboveHighWatermarkCalled = _ ∧
      ((b.call o).1.runOps os).highWatermark = _ ∧ ((b.call o).1.runOps os).lowWatermark = _
    rw [h2.1, h2.2.1, h2.2.2.1, h2.2.2.2, h1]
    exact ⟨rfl, rfl, rfl, rfl⟩

/-- Resume edge, for occupancies that fit in 32 bits: with a high notification
outstanding and checking enabled, in a sequence of shrink calls
`before ++ o :: after` where the occupancy stays at or above `lowWatermark`
through `before` and is strictly below it after `o`, no call of `before`
delivers anything, `o` delivers `OnLowWatermark`, and no call of `after`
delivers anything. -/
theorem resume_edge_of_fits (b : WatermarkBuffer M) (before after : List (Op M)) (o : Op M)
    (hs : ∀ x ∈ before ++ o :: after, x.isShrink = true)
    (hhigh : 0 < b.highWatermark) (hflag : b.aboveHighWatermarkCalled = true)
    (hfit : b.FitsAfterEach before) (hlow : b.AtLeastLowAfterEach before)
    (hfito : ((b.runOps before).call o).1.Fits)
    (hbelow : ((b.runOps before).call o).1.Len <
      (((b.runOps before).call o).1.lowWatermark : Int)) :
    (b.runOps before).delivered = b.delivered ∧
    (b.runOps (before ++ [o])).delivered = b.delivered ++ [Notification.OnLowWatermark] ∧
    (b.runOps (before ++ o :: after)).delivered =
      b.delivered ++ [Notification.OnLowWatermark] := by
  have h1 := shrink_run_holds before b
    (fun x hx => hs x (List.mem_append_left _ hx)) hhigh hfit hlow
  have h2 := shrink_call_fires (b.runOps before) o
    (hs o (List.mem_append_right _ (List.mem_cons_self _ _)))
    (by rw [h1.2.1]; exact hflag) hfito hbelow
  have h3 := shrink_run_of_flag_clear after ((b.runOps before).call o).1
    (fun x hx => hs x (List.mem_append_right _ (List.mem_cons_of_mem _ hx))) h2.2
  refine ⟨h1.1, ?_, ?_⟩
  · rw [runOps_append]
    show ((b.runOps before).call o).1.delivered = _
    rw [h2.1, h1.1]
  · rw [runOps_append]
    show (((b.runOps before).call o).1.runOps after).delivered = _
    rw [h3.1, h2.1, h1.1]

/-- The resume-edge statement at work: thresholds (5, 10), twelve bytes held
with the flag set, then drains to 6 and to 4 bytes and a reset. -/
theorem resume_edge_of_fits_example :
    ((stateOf 12 5 10 true [Notification.OnHighWatermark]).runOps
      [Op.Drain 6]).delivered = [Notification.OnHighWatermark] ∧
    ((stateOf 12 5 10 true [Notification.OnHighWatermark]).runOps
      [Op.Drain 6, Op.Drain 2, Op.Reset]).delivered =
      [Notification.OnHighWatermark, Notification.OnLowWatermark] :=
  have h := resume_edge_of_fits (stateOf 12 5 10 true [Notification.OnHighWatermark])
    [Op.Drain 6] [Op.Reset] (Op.Drain 2)
    (by decide) (by decide) (by decide)
    ⟨by decide, trivial⟩ ⟨by decide, trivial⟩ (by decide) (by decide)
  ⟨h.1, h.2.2⟩

/-- C5. The code at a state the claim covers: thresholds (5, 10), the flag set
after one `OnHighWatermark`, 4294967297 bytes held, and the one-call sequence
`Drain(1)`.  The call leaves 4294967296 bytes, which is not below
`lowWatermark`, and yet delivers `OnLowWatermark` and clears the flag: `uint32`
of the length is 0. -/
theorem resume_edge_fails_at_4GiB :
    0 < (stateOf 4294967297 5 10 true [Notification.OnHighWatermark]).highWatermark ∧
    (stateOf 4294967297 5 10 true [Notification.OnHighWatermark]).aboveHighWatermarkCalled
      = true ∧
    (Op.Drain 1 : Op occupancyBuffer).isShrink = true ∧
    ((stateOf 4294967297 5 10 true [Notification.OnHighWatermark]).call (Op.Drain 1)).1.Len
      = 4294967296 ∧
    ¬ ((stateOf 4294967297 5 10 true [Notification.OnHighWatermark]).call (Op.Drain 1)).1.Len
      < 5 ∧
    ((stateOf 4294967297 5 10 true [Notification.OnHighWatermark]).runOps
      [Op.Drain 1]).delivered =
      [Notification.OnHighWatermark, Notification.OnLowWatermark] ∧
    ((stateOf 4294967297 5 10 true [Notification.OnHighWatermark]).runOps
      [Op.Drain 1]).aboveHighWatermarkCalled = false := by
  refine ⟨by decide, by decide, by decide, by decide, by decide, by decide, by decide⟩

/-! ## Checking disabled -/

/-- With `highWatermark = 0` and the flag clear, a mutating call only moves the
wrapped buffer. -/
theorem call_of_disabled (b : WatermarkBuffer M) (o : Op M)
    (hhigh : b.highWatermark = 0) (hflag : b.aboveHighWatermarkCalled = false) :
    (b.call o).1 = { b with IoBuffer := (M.delegate b.IoBuffer o).1 } := by
  rw [call_state]
  cases o.checkAfter
  · exact checkLowWatermark_skip _ (Or.inl hflag)
  · exact checkHighWatermark_skip _ (fun h => h.2.1 hhigh)

theorem run_of_disabled (os : List (Op M)) (b : WatermarkBuffer M)
    (hhigh : b.highWatermark = 0) (hflag : b.aboveHighWatermarkCalled = false) :
    (b.runOps os).delivered = b.delivered ∧
    (b.runOps os).aboveHighWatermarkCalled = false ∧
    (b.runOps os).highWatermark = 0 := by
  induction os generalizing b with
  | nil => exact ⟨rfl, hflag, hhigh⟩
  | cons o os ih =>
    have h1 := call_of_disabled b o hhigh hflag
    have h2 := ih (b.call o).1 (by rw [h1]; exact hhigh) (by rw [h1]; exact hflag)
    refine ⟨?_, h2.2⟩
    show ((b.call o).1.runOps os).delivered = b.delivered
    rw [h2.1, h1]
    rfl

/-- C6. Disabled high watermark: each of the three constructors yields
`lowWatermark = 0`, `highWatermark = 0` and the flag clear; and from any state
with `highWatermark = 0` and the flag clear, every sequence of the ten mutating
methods, over any wrapped buffer and whatever the occupancy becomes, delivers
no notification, leaves the flag false and `highWatermark` at 0. -/
theorem disabled_high_watermark (M : IoBufferOps) :
    (∀ (capacity : Int) (l : BufferWatermarkListener),
      (NewWatermarkBuffer M capacity l).lowWatermark = 0 ∧
      (NewWatermarkBuffer M capacity l).highWatermark = 0 ∧
      (NewWatermarkBuffer M capacity l).aboveHighWatermarkCalled = false) ∧
    (∀ (s : List UInt8) (l : BufferWatermarkListener),
      (NewWatermarkBufferString M s l).lowWatermark = 0 ∧
      (NewWatermarkBufferString M s l).highWatermark = 0 ∧
      (NewWatermarkBufferString M s l).aboveHighWatermarkCalled = false) ∧
    (∀ (bytes : List UInt8) (l : BufferWatermarkListener),
      (NewWatermarkBufferBytes M bytes l).lowWatermark = 0 ∧
      (NewWatermarkBufferBytes M bytes l).highWatermark = 0 ∧
      (NewWatermarkBufferBytes M bytes l).aboveHighWatermarkCalled = false) ∧
    (∀ (b : WatermarkBuffer M) (os : List (Op M)),
      b.highWatermark = 0 → b.aboveHighWatermarkCalled = false →
        (b.runOps os).delivered = b.delivered ∧
        (b.runOps os).aboveHighWatermarkCalled = false ∧
        (b.runOps os).highWatermark = 0) :=
  ⟨fun _ _ => ⟨rfl, rfl, rfl⟩, fun _ _ => ⟨rfl, rfl, rfl⟩, fun _ _ => ⟨rfl, rfl, rfl⟩,
    fun b os hhigh hflag => run_of_disabled os b hhigh hflag⟩

/-- Witness of C6: a buffer from `NewWatermarkBuffer`, then a write of twelve
bytes, one more byte, a drain of ten and a reset. -/
theorem disabled_high_watermark_witness :
    (NewWatermarkBuffer occupancyBuffer 16 BufferWatermarkListener.fresh).highWatermark = 0 ∧
    (NewWatermarkBuffer occupancyBuffer 16
      BufferWatermarkListener.fresh).aboveHighWatermarkCalled = false ∧
    ((NewWatermarkBuffer occupancyBuffer 16 BufferWatermarkListener.fresh).runOps
      [Op.Write [0, 1, 2, 3, 4, 5, 6, 7, 8, 9, 10, 11], Op.AppendByte 12, Op.Drain 10,
        Op.Reset]).delivered = [] :=
  ⟨rfl, rfl,
    ((disabled_high_watermark occupancyBuffer).2.2.2
      (NewWatermarkBuffer occupancyBuffer 16 BufferWatermarkListener.fresh)
      [Op.Write [0, 1, 2, 3, 4, 5, 6, 7, 8, 9, 10, 11], Op.AppendByte 12, Op.Drain 10,
        Op.Reset] rfl rfl).1⟩

/-! ## Boundaries -/

/-- Boundary exactness, for occupancies that fit in 32 bits: with checking
enabled and the flag clear a growth call delivers `OnHighWatermark` exactly
when it leaves more than `highWatermark` bytes; with checking enabled and the
flag set a shrink call delivers `OnLowWatermark` exactly when it leaves fewer
than `lowWatermark` bytes. -/
theorem boundary_of_fits (b : WatermarkBuffer M) (o : Op M)
    (hhigh : 0 < b.highWatermark) (hfit : (b.call o).1.Fits) :
    (o.isGrowth = true → b.aboveHighWatermarkCalled = false →
      ((b.call o).1.delivered = b.delivered ++ [Notification.OnHighWatermark] ↔
        (b.highWatermark : Int) < (b.call o).1.Len)) ∧
    (o.isShrink = true → b.aboveHighWatermarkCalled = true →
      ((b.call o).1.delivered = b.delivered ++ [Notification.OnLowWatermark] ↔
        (b.call o).1.Len < (b.lowWatermark : Int))) := by
  have hfr := call_frame b o
  have hlen : (b.call o).1.Len = M.Len (M.delegate b.IoBuffer o).1 := by
    unfold Len; rw [hfr.1]
  have hfit' := hfit
  unfold Fits at hfit'
  rw [hlen] at hfit'
  have hu := uint32_of_fits hfit'.1 hfit'.2
  constructor
  · intro hg hflag
    constructor
    · intro hd
      by_contra hn
      have hskip := checkHighWatermark_skip
        ({ b with IoBuffer := (M.delegate b.IoBuffer o).1 } : WatermarkBuffer M)
        (fun h => by
          have h3 : b.highWatermark < uint32 (M.Len (M.delegate b.IoBuffer o).1) := h.2.2
          rw [hlen] at hn
          omega)
      rw [call_state, checkAfter_of_isGrowth hg] at hd
      change (checkHighWatermark _).delivered = _ at hd
      rw [hskip] at hd
      have := congrArg List.length hd
      simp [delivered] at this
    · intro ha
      exact (growth_call_fires b o hg hhigh hflag hfit (by rw [hfr.2.2]; exact ha)).1
  · intro hs hflag
    constructor
    · intro hd
      by_contra hn
      have hhold := shrink_call_holds b o hs hhigh hfit (by rw [hfr.2.1]; omega)
      rw [hhold] at hd
      have := congrArg List.length hd
      simp [delivered] at this
    · intro hl
      exact (shrink_call_fires b o hs hflag hfit (by rw [hfr.2.1]; exact hl)).1

/-- The boundary examples of the spec: with `highWatermark = 10`, reaching
length 10 does not fire and length 11 fires; with `lowWatermark = 5` and the
flag set, length 5 does not fire and length 4 fires. -/
theorem boundary_examples :
    ((stateOf 9 5 10 false []).call (Op.AppendByte 0)).1.delivered = [] ∧
    ((stateOf 10 5 10 false []).call (Op.AppendByte 0)).1.delivered =
      [Notification.OnHighWatermark] ∧
    ((stateOf 6 5 10 true [Notification.OnHighWatermark]).call (Op.Drain 1)).1.delivered =
      [Notification.OnHighWatermark] ∧
    ((stateOf 5 5 10 true [Notification.OnHighWatermark]).call (Op.Drain 1)).1.delivered =
      [Notification.OnHighWatermark, Notification.OnLowWatermark] := by
  refine ⟨by decide, by decide, by decide, by decide⟩

/-- C7. The code at two states with 4 GiB held and thresholds (5, 10).  With
the flag clear and 4294967305 bytes held, `Write` of one byte leaves 4294967306
bytes, more than `highWatermark`, and delivers nothing: `uint32` of the length
is 10.  With the flag set and 4294967300 bytes held, `Read` into two bytes
leaves 4294967298 bytes, not fewer than `lowWatermark`, and delivers
`OnLowWatermark`: `uint32` of the length is 2. -/
theorem boundary_fails_over_true_occupancy :
    (((stateOf 4294967305 5 10 false []).call (Op.Write [0])).1.Len = 4294967306 ∧
      ((stateOf 4294967305 5 10 false []).highWatermark : Int) <
        ((stateOf 4294967305 5 10 false []).call (Op.Write [0])).1.Len ∧
      uint32 ((stateOf 4294967305 5 10 false []).call (Op.Write [0])).1.Len = 10 ∧
      ((stateOf 4294967305 5 10 false []).call (Op.Write [0])).1.delivered = []) ∧
    (((stateOf 4294967300 5 10 true [Notification.OnHighWatermark]).call
        (Op.Read [0, 0])).1.Len = 4294967298 ∧
      ¬ ((stateOf 4294967300 5 10 true [Notification.OnHighWatermark]).call
          (Op.Read [0, 0])).1.Len <
        ((stateOf 4294967300 5 10 true [Notification.OnHighWatermark]).lowWatermark : Int) ∧
      uint32 ((stateOf 4294967300 5 10 true [Notification.OnHighWatermark]).call
        (Op.Read [0, 0])).1.Len = 2 ∧
      ((stateOf 4294967300 5 10 true [Notification.OnHighWatermark]).call
        (Op.Read [0, 0])).1.delivered =
        [Notification.OnHighWatermark, Notification.OnLowWatermark]) := by
  refine ⟨⟨by decide, by decide, by decide, by decide⟩,
    ⟨by decide, by decide, by decide, by decide⟩⟩

/-! ## The operation table, transparency, configuration -/

/-- What a call delivers: nothing, or the one notification of its check. -/
theorem call_delivered (b : WatermarkBuffer M) (o : Op M) :
    (b.call o).1.delivered = b.delivered ∨
    (b.call o).1.delivered = b.delivered ++
      [match o.checkAfter with
        | Check.low => Notification.OnLowWatermark
        | Check.high => Notification.OnHighWatermark] := by
  rw [call_state]
  cases o.checkAfter
  · rcases checkLowWatermark_cases
      ({ b with IoBuffer := (M.delegate b.IoBuffer o).1 } : WatermarkBuffer M) with h | ⟨_, h⟩
    · left; show (checkLowWatermark _).delivered = _; rw [h]; rfl
    · right; show (checkLowWatermark _).delivered = _; rw [h]; rfl
  · rcases checkHighWatermark_cases
      ({ b with IoBuffer := (M.delegate b.IoBuffer o).1 } : WatermarkBuffer M) with h | ⟨_, _, h⟩
    · left; show (checkHighWatermark _).delivered = _; rw [h]; rfl
    · right; show (checkHighWatermark _).delivered = _; rw [h]; rfl

/-- C8. Operation table: each of the ten mutating methods is the wrapped
buffer's method followed by one watermark check run on the state that method
left, whatever it returned: `checkLowWatermark` after `Read`, `WriteTo`, `Cut`,
`Drain` and `Reset`, `checkHighWatermark` after `ReadOnce`, `ReadFrom`,
`Write`, `Append` and `AppendByte`.  The methods of the source agree with the
table of the spec on every call, and a call delivers at most the one
notification of its own check. -/
theorem operation_table (b : WatermarkBuffer M) :
    (∀ p, b.Read p =
      (checkLowWatermark { b with IoBuffer := (M.Read b.IoBuffer p).1 },
        (M.Read b.IoBuffer p).2)) ∧
    (∀ r, b.ReadOnce r =
      (checkHighWatermark { b with IoBuffer := (M.ReadOnce b.IoBuffer r).1 },
        (M.ReadOnce b.IoBuffer r).2)) ∧
    (∀ r, b.ReadFrom r =
      (checkHighWatermark { b with IoBuffer := (M.ReadFrom b.IoBuffer r).1 },
        (M.ReadFrom b.IoBuffer r).2)) ∧
    (∀ p, b.Write p =
      (checkHighWatermark { b with IoBuffer := (M.Write b.IoBuffer p).1 },
        (M.Write b.IoBuffer p).2)) ∧
    (∀ w, b.WriteTo w =
      (checkLowWatermark { b with IoBuffer := (M.WriteTo b.IoBuffer w).1 },
        (M.WriteTo b.IoBuffer w).2)) ∧
    (∀ data, b.Append data =
      (checkHighWatermark { b with IoBuffer := (M.Append b.IoBuffer data).1 },
        (M.Append b.IoBuffer data).2)) ∧
    (∀ data, b.AppendByte data =
      (checkHighWatermark { b with IoBuffer := (M.AppendByte b.IoBuffer data).1 },
        (M.AppendByte b.IoBuffer data).2)) ∧
    (∀ offset, b.Cut offset =
      (checkLowWatermark { b with IoBuffer := (M.Cut b.IoBuffer offset).1 },
        (M.Cut b.IoBuffer offset).2)) ∧
    (∀ offset, b.Drain offset =
      checkLowWatermark { b with IoBuffer := M.Drain b.IoBuffer offset }) ∧
    b.Reset = checkLowWatermark { b with IoBuffer := M.Reset b.IoBuffer } ∧
    (∀ o : Op M, b.call o = b.tableCall o) ∧
    (∀ o : Op M,
      (b.call o).1.delivered = b.delivered ∨
      (b.call o).1.delivered = b.delivered ++
        [match o.checkAfter with
          | Check.low => Notification.OnLowWatermark
          | Check.high => Notification.OnHighWatermark]) :=
  ⟨fun _ => rfl, fun _ => rfl, fun _ => rfl, fun _ => rfl, fun _ => rfl, fun _ => rfl,
    fun _ => rfl, fun _ => rfl, fun _ => rfl, rfl, call_eq_tableCall b, call_delivered b⟩

/-- C9. Transparency: each of the ten methods returns exactly what the wrapped
buffer's method of the same name returns (count, error or buffer) and leaves
the wrapped buffer exactly as that method left it; the thresholds are
unchanged, so the watermark layer touches nothing but the flag (and the
listener it notifies). -/
theorem transparency (b : WatermarkBuffer M) :
    (∀ p, (b.Read p).2 = (M.Read b.IoBuffer p).2 ∧
      (b.Read p).1.IoBuffer = (M.Read b.IoBuffer p).1) ∧
    (∀ r, (b.ReadOnce r).2 = (M.ReadOnce b.IoBuffer r).2 ∧
      (b.ReadOnce r).1.IoBuffer = (M.ReadOnce b.IoBuffer r).1) ∧
    (∀ r, (b.ReadFrom r).2 = (M.ReadFrom b.IoBuffer r).2 ∧
      (b.ReadFrom r).1.IoBuffer = (M.ReadFrom b.IoBuffer r).1) ∧
    (∀ p, (b.Write p).2 = (M.Write b.IoBuffer p).2 ∧
      (b.Write p).1.IoBuffer = (M.Write b.IoBuffer p).1) ∧
    (∀ w, (b.WriteTo w).2 = (M.WriteTo b.IoBuffer w).2 ∧
      (b.WriteTo w).1.IoBuffer = (M.WriteTo b.IoBuffer w).1) ∧
    (∀ data, (b.Append data).2 = (M.Append b.IoBuffer data).2 ∧
      (b.Append data).1.IoBuffer = (M.Append b.IoBuffer data).1) ∧
    (∀ data, (b.AppendByte data).2 = (M.AppendByte b.IoBuffer data).2 ∧
      (b.AppendByte data).1.IoBuffer = (M.AppendByte b.IoBuffer data).1) ∧
    (∀ offset, (b.Cut offset).2 = (M.Cut b.IoBuffer offset).2 ∧
      (b.Cut offset).1.IoBuffer = (M.Cut b.IoBuffer offset).1) ∧
    (∀ offset, (b.Drain offset).IoBuffer = M.Drain b.IoBuffer offset) ∧
    b.Reset.IoBuffer = M.Reset b.IoBuffer ∧
    (∀ o : Op M,
      (b.call o).2 = (M.delegate b.IoBuffer o).2 ∧
      (b.call o).1.IoBuffer = (M.delegate b.IoBuffer o).1 ∧
      (b.call o).1.lowWatermark = b.lowWatermark ∧
      (b.call o).1.highWatermark = b.highWatermark) := by
  refine ⟨fun p => ⟨rfl, ?_⟩, fun r => ⟨rfl, ?_⟩, fun r => ⟨rfl, ?_⟩, fun p => ⟨rfl, ?_⟩,
    fun w => ⟨rfl, ?_⟩, fun data => ⟨rfl, ?_⟩, fun data => ⟨rfl, ?_⟩, fun offset => ⟨rfl, ?_⟩,
    fun offset => ?_, ?_, fun o => ⟨?_, call_frame b o⟩⟩
  · exact (checkLowWatermark_frame _).1
  · exact (checkHighWatermark_frame _).1
  · exact (checkHighWatermark_frame _).1
  · exact (checkHighWatermark_frame _).1
  · exact (checkLowWatermark_frame _).1
  · exact (checkHighWatermark_frame _).1
  · exact (checkHighWatermark_frame _).1
  · exact (checkLowWatermark_frame _).1
  · exact (checkLowWatermark_frame _).1
  · exact (checkLowWatermark_frame _).1
  · rw [call_eq_tableCall]; rfl

/-- C10. Default ratio: `SetWaterMark(w)` leaves the state `SetWaterMarks(w/2, w)`
leaves, with `lowWatermark = w / 2` (rounded down), `highWatermark = w` and so
`lowWatermark ≤ highWatermark`; `SetWaterMark(100)` yields 50 and 100. -/
theorem default_ratio (b : WatermarkBuffer M) (w : Nat) :
    b.SetWaterMark w = b.SetWaterMarks (w / 2) w ∧
    (b.SetWaterMark w).lowWatermark = w / 2 ∧
    (b.SetWaterMark w).highWatermark = w ∧
    2 * (b.SetWaterMark w).lowWatermark ≤ w ∧
    w < 2 * (b.SetWaterMark w).lowWatermark + 2 ∧
    (b.SetWaterMark w).lowWatermark ≤ (b.SetWaterMark w).highWatermark ∧
    (b.SetWaterMark 100).lowWatermark = 50 ∧
    (b.SetWaterMark 100).highWatermark = 100 := by
  refine ⟨rfl, rfl, rfl, ?_, ?_, ?_, rfl, rfl⟩
  · show 2 * (w / 2) ≤ w
    omega
  · show w < 2 * (w / 2) + 2
    omega
  · show w / 2 ≤ w
    omega

/-! ## Inverted and disabled configurations -/

/-- With the flag set and checking enabled, a mutating call that leaves an
occupancy of 32 bits at or above `lowWatermark` only moves the wrapped
buffer. -/
theorem call_holds_of_flag_set (b : WatermarkBuffer M) (o : Op M)
    (hhigh : 0 < b.highWatermark) (hflag : b.aboveHighWatermarkCalled = true)
    (hfit : (b.call o).1.Fits)
    (hlow : ((b.call o).1.lowWatermark : Int) ≤ (b.call o).1.Len) :
    (b.call o).1 = { b with IoBuffer := (M.delegate b.IoBuffer o).1 } := by
  have hfr := call_frame b o
  have hlen : (b.call o).1.Len = M.Len (M.delegate b.IoBuffer o).1 := by
    unfold Len; rw [hfr.1]
  rw [hfr.2.1, hlen] at hlow
  unfold Fits at hfit
  rw [hlen] at hfit
  have hu := uint32_of_fits hfit.1 hfit.2
  rw [call_state]
  cases o.checkAfter
  · exact checkLowWatermark_skip _ (Or.inr ⟨hhigh, by
      show uint32 (M.Len (M.delegate b.IoBuffer o).1) ≥ b.lowWatermark; omega⟩)
  · exact checkHighWatermark_skip _ (fun h => by
      have h1 : b.aboveHighWatermarkCalled = false := h.1
      rw [hflag] at h1
      exact Bool.noConfusion h1)

/-- Mutating calls on a state with the flag set and checking enabled, each
leaving an occupancy of 32 bits at or above `lowWatermark`, deliver nothing. -/
theorem run_holds_of_flag_set (os : List (Op M)) (b : WatermarkBuffer M)
    (hhigh : 0 < b.highWatermark) (hflag : b.aboveHighWatermarkCalled = true)
    (hfit : b.FitsAfterEach os) (hlow : b.AtLeastLowAfterEach os) :
    (b.runOps os).delivered = b.delivered ∧
    (b.runOps os).aboveHighWatermarkCalled = true := by
  induction os generalizing b with
  | nil => exact ⟨rfl, hflag⟩
  | cons o os ih =>
    have h1 := call_holds_of_flag_set b o hhigh hflag hfit.1 hlow.1
    have h2 := ih (b.call o).1 (by rw [h1]; exact hhigh) (by rw [h1]; exact hflag)
      hfit.2 hlow.2
    refine ⟨?_, h2.2⟩
    show ((b.call o).1.runOps os).delivered = b.delivered
    rw [h2.1, h1]
    rfl

/-- C11, as the claim states it, fails: a buffer from `NewWatermarkBuffer`
configured by `SetWaterMarks(20, 10)` (low > high > 0) delivers
`OnHighWatermark` on a write of eleven bytes and then `OnLowWatermark` on
`Drain(1)`, which leaves ten bytes, fewer than `lowWatermark`. -/
theorem inverted_configuration_fires_low :
    ((NewWatermarkBuffer occupancyBuffer 16 BufferWatermarkListener.fresh).SetWaterMarks
      20 10).highWatermark <
      ((NewWatermarkBuffer occupancyBuffer 16 BufferWatermarkListener.fresh).SetWaterMarks
        20 10).lowWatermark ∧
    0 < ((NewWatermarkBuffer occupancyBuffer 16 BufferWatermarkListener.fresh).SetWaterMarks
      20 10).highWatermark ∧
    (((NewWatermarkBuffer occupancyBuffer 16 BufferWatermarkListener.fresh).SetWaterMarks
      20 10).runOps [Op.Write [0, 1, 2, 3, 4, 5, 6, 7, 8, 9, 10]]).delivered =
      [Notification.OnHighWatermark] ∧
    (((NewWatermarkBuffer occupancyBuffer 16 BufferWatermarkListener.fresh).SetWaterMarks
      20 10).runOps [Op.Write [0, 1, 2, 3, 4, 5, 6, 7, 8, 9, 10], Op.Drain 1]).Len = 10 ∧
    (((NewWatermarkBuffer occupancyBuffer 16 BufferWatermarkListener.fresh).SetWaterMarks
      20 10).runOps [Op.Write [0, 1, 2, 3, 4, 5, 6, 7, 8, 9, 10], Op.Drain 1]).delivered =
      [Notification.OnHighWatermark, Notification.OnLowWatermark] := by
  refine ⟨by decide, by decide, by decide, by decide, by decide⟩

/-- C11, amended. Inverted configuration, for occupancies that fit in 32 bits:
with `lowWatermark > highWatermark > 0` and a high notification outstanding,
no sequence of mutating calls delivers anything while each call leaves the
occupancy at or above `lowWatermark`, and a shrink call that leaves the
occupancy strictly below `lowWatermark` delivers `OnLowWatermark` and clears
the flag, also when the occupancy is still above `highWatermark`.  The low
check never looks at the order of the two thresholds. -/
theorem inverted_configuration (b : WatermarkBuffer M)
    (_hinv : b.highWatermark < b.lowWatermark) (hhigh : 0 < b.highWatermark)
    (hflag : b.aboveHighWatermarkCalled = true) :
    (∀ os : List (Op M), b.FitsAfterEach os → b.AtLeastLowAfterEach os →
      (b.runOps os).delivered = b.delivered ∧
      (b.runOps os).aboveHighWatermarkCalled = true) ∧
    (∀ o : Op M, o.isShrink = true → (b.call o).1.Fits →
      (b.call o).1.Len < (b.lowWatermark : Int) →
      (b.call o).1.delivered = b.delivered ++ [Notification.OnLowWatermark] ∧
      (b.call o).1.aboveHighWatermarkCalled = false) := by
  refine ⟨fun os hfit hlow => run_holds_of_flag_set os b hhigh hflag hfit hlow,
    fun o hs hfit hlt => shrink_call_fires b o hs hflag hfit ?_⟩
  rw [(call_frame b o).2.1]
  exact hlt

/-- Witness of C11, amended: thresholds (20, 10), the flag set, 25 bytes held.
A write of one byte and a drain of five leave 26 and 21 bytes and deliver
nothing; from there a drain of six leaves 15 bytes, above `highWatermark` and
below `lowWatermark`, and delivers `OnLowWatermark`. -/
theorem inverted_configuration_witness :
    ((stateOf 25 20 10 true [Notification.OnHighWatermark]).highWatermark <
        (stateOf 25 20 10 true [Notification.OnHighWatermark]).lowWatermark ∧
      0 < (stateOf 25 20 10 true [Notification.OnHighWatermark]).highWatermark ∧
      (stateOf 25 20 10 true [Notification.OnHighWatermark]).aboveHighWatermarkCalled = true) ∧
    ((stateOf 25 20 10 true [Notification.OnHighWatermark]).runOps
      [Op.Write [0], Op.Drain 5]).delivered = [Notification.OnHighWatermark] ∧
    ((stateOf 21 20 10 true [Notification.OnHighWatermark]).call (Op.Drain 6)).1.delivered =
      [Notification.OnHighWatermark, Notification.OnLowWatermark] :=
  ⟨⟨by decide, by decide, by decide⟩,
    ((inverted_configuration (stateOf 25 20 10 true [Notification.OnHighWatermark])
      (by decide) (by decide) (by decide)).1 [Op.Write [0], Op.Drain 5]
      ⟨by decide, by decide, trivial⟩ ⟨by decide, by decide, trivial⟩).1,
    ((inverted_configuration (stateOf 21 20 10 true [Notification.OnHighWatermark])
      (by decide) (by decide) (by decide)).2 (Op.Drain 6)
      (by decide) (by decide) (by decide)).1⟩

/-- C12, as the claim states it, fails: thresholds (5, 10), the flag set, 20
bytes held; after `SetWaterMarks(5, 0)` the shrink call `Drain(1)` delivers
`OnLowWatermark` and clears the flag. -/
theorem disabled_guard_fires_low :
    ((stateOf 20 5 10 true [Notification.OnHighWatermark]).SetWaterMarks
      5 0).aboveHighWatermarkCalled = true ∧
    ((stateOf 20 5 10 true [Notification.OnHighWatermark]).SetWaterMarks
      5 0).highWatermark = 0 ∧
    (((stateOf 20 5 10 true [Notification.OnHighWatermark]).SetWaterMarks 5 0).call
      (Op.Drain 1)).1.delivered =
      [Notification.OnHighWatermark, Notification.OnLowWatermark] ∧
    (((stateOf 20 5 10 true [Notification.OnHighWatermark]).SetWaterMarks 5 0).call
      (Op.Drain 1)).1.aboveHighWatermarkCalled = false := by
  refine ⟨by decide, by decide, by decide, by decide⟩

/-- C12, amended. With the flag set and `highWatermark = 0`, the
`highWatermark > 0` guard switches the length test off: every shrink call
delivers `OnLowWatermark` exactly once and clears the flag, whatever the
occupancy and `lowWatermark`. -/
theorem disabled_guard_releases (b : WatermarkBuffer M) (o : Op M)
    (hs : o.isShrink = true) (hflag : b.aboveHighWatermarkCalled = true)
    (hhigh : b.highWatermark = 0) :
    (b.call o).1.delivered = b.delivered ++ [Notification.OnLowWatermark] ∧
    (b.call o).1.aboveHighWatermarkCalled = false ∧
    (b.call o).1 =
      { b with
        IoBuffer := (M.delegate b.IoBuffer o).1
        aboveHighWatermarkCalled := false
        watermarkListener := b.watermarkListener.OnLowWatermark } := by
  have hfire := checkLowWatermark_fire
    ({ b with IoBuffer := (M.delegate b.IoBuffer o).1 } : WatermarkBuffer M)
    ⟨hflag, fun h => by
      have h1 : b.highWatermark > 0 := h.1
      omega⟩
  rw [call_state, checkAfter_of_isShrink hs]
  show (checkLowWatermark _).delivered = _ ∧ (checkLowWatermark _).aboveHighWatermarkCalled = _ ∧
    checkLowWatermark _ = _
  rw [hfire]
  exact ⟨rfl, rfl, rfl⟩

/-- Witness of C12, amended: thresholds (5, 0), the flag set, 20 bytes held,
and `Reset`. -/
theorem disabled_guard_releases_witness :
    ((Op.Reset : Op occupancyBuffer).isShrink = true ∧
      (stateOf 20 5 0 true [Notification.OnHighWatermark]).aboveHighWatermarkCalled = true ∧
      (stateOf 20 5 0 true [Notification.OnHighWatermark]).highWatermark = 0) ∧
    ((stateOf 20 5 0 true [Notification.OnHighWatermark]).call Op.Reset).1.delivered =
      [Notification.OnHighWatermark, Notification.OnLowWatermark] ∧
    ((stateOf 20 5 0 true [Notification.OnHighWatermark]).call
      Op.Reset).1.aboveHighWatermarkCalled = false :=
  ⟨⟨by decide, by decide, by decide⟩,
    (disabled_guard_releases (stateOf 20 5 0 true [Notification.OnHighWatermark]) Op.Reset
      (by decide) (by decide) (by decide)).1,
    (disabled_guard_releases (stateOf 20 5 0 true [Notification.OnHighWatermark]) Op.Reset
      (by decide) (by decide) (by decide)).2.1⟩

/-! ## The two scenarios of the spec -/

/-- C13. Scenario A: on a buffer built by `NewWatermarkBuffer(16, listener)` and
configured by `SetWaterMarks(4, 8)`, the calls `Write`, `Write`, `Drain(6)`,
`Drain(1)`, over any wrapped buffer that holds 9 bytes after the first write, 4
after the first drain and 3 after the second (whatever the second write
leaves; 10 in the scenario): the first write delivers `OnHighWatermark`, the
second write and the first drain deliver nothing, the second drain delivers
`OnLowWatermark`, and the flag ends clear. -/
theorem scenario_A (M : IoBufferOps) (l : BufferWatermarkListener) (p9 p1 : List UInt8)
    (hlen1 : (((NewWatermarkBuffer M 16 l).SetWaterMarks 4 8).runOps
      [Op.Write p9]).Len = 9)
    (hlen3 : (((NewWatermarkBuffer M 16 l).SetWaterMarks 4 8).runOps
      [Op.Write p9, Op.Write p1, Op.Drain 6]).Len = 4)
    (hlen4 : (((NewWatermarkBuffer M 16 l).SetWaterMarks 4 8).runOps
      [Op.Write p9, Op.Write p1, Op.Drain 6, Op.Drain 1]).Len = 3) :
    (((NewWatermarkBuffer M 16 l).SetWaterMarks 4 8).runOps
      [Op.Write p9]).delivered = l.delivered ++ [Notification.OnHighWatermark] ∧
    (((NewWatermarkBuffer M 16 l).SetWaterMarks 4 8).runOps
      [Op.Write p9, Op.Write p1]).delivered =
      l.delivered ++ [Notification.OnHighWatermark] ∧
    (((NewWatermarkBuffer M 16 l).SetWaterMarks 4 8).runOps
      [Op.Write p9, Op.Write p1, Op.Drain 6]).delivered =
      l.delivered ++ [Notification.OnHighWatermark] ∧
    (((NewWatermarkBuffer M 16 l).SetWaterMarks 4 8).runOps
      [Op.Write p9, Op.Write p1, Op.Drain 6, Op.Drain 1]).delivered =
      l.delivered ++ [Notification.OnHighWatermark, Notification.OnLowWatermark] ∧
    (((NewWatermarkBuffer M 16 l).SetWaterMarks 4 8).runOps
      [Op.Write p9, Op.Write p1, Op.Drain 6, Op.Drain 1]).aboveHighWatermarkCalled
      = false := by
  generalize hb0 : (NewWatermarkBuffer M 16 l).SetWaterMarks 4 8 = b0 at *
  have e0 : b0.highWatermark = 8 ∧ b0.lowWatermark = 4 ∧
      b0.aboveHighWatermarkCalled = false ∧ b0.delivered = l.delivered := by
    rw [← hb0]; exact ⟨rfl, rfl, rfl, rfl⟩
  simp only [runOps] at hlen1 hlen3 hlen4 ⊢
  -- first write
  have f1 := call_frame b0 (Op.Write p9)
  have s1 := growth_call_fires b0 (Op.Write p9) rfl (by rw [e0.1]; decide) e0.2.2.1
    (by unfold Fits; rw [hlen1]; decide) (by rw [f1.2.2, e0.1, hlen1]; decide)
  generalize (b0.call (Op.Write p9)).1 = b1 at *
  -- second write
  have s2 := growth_call_of_flag_set b1 (Op.Write p1) rfl s1.2
  have f2 := call_frame b1 (Op.Write p1)
  have d2 : (b1.call (Op.Write p1)).1.delivered = b1.delivered := by rw [s2]; rfl
  have g2 : (b1.call (Op.Write p1)).1.aboveHighWatermarkCalled = true := by
    rw [s2]; exact s1.2
  clear s2
  generalize (b1.call (Op.Write p1)).1 = b2 at *
  -- first drain
  have f3 := call_frame b2 (Op.Drain 6)
  have s3 := shrink_call_holds b2 (Op.Drain 6) rfl
    (by rw [f2.2.2, f1.2.2, e0.1]; decide)
    (by unfold Fits; rw [hlen3]; decide)
    (by rw [f3.2.1, f2.2.1, f1.2.1, e0.2.1, hlen3]; decide)
  have d3 : (b2.call (Op.Drain 6)).1.delivered = b2.delivered := by rw [s3]; rfl
  have g3 : (b2.call (Op.Drain 6)).1.aboveHighWatermarkCalled = true := by
    rw [s3]; exact g2
  clear s3
  generalize (b2.call (Op.Drain 6)).1 = b3 at *
  -- second drain
  have f4 := call_frame b3 (Op.Drain 1)
  have s4 := shrink_call_fires b3 (Op.Drain 1) rfl g3
    (by unfold Fits; rw [hlen4]; decide)
    (by rw [f4.2.1, f3.2.1, f2.2.1, f1.2.1, e0.2.1, hlen4]; decide)
  refine ⟨?_, ?_, ?_, ?_, ?_⟩
  · rw [s1.1, e0.2.2.2]
  · rw [d2, s1.1, e0.2.2.2]
  · rw [d3, d2, s1.1, e0.2.2.2]
  · rw [s4.1, d3, d2, s1.1, e0.2.2.2]
    simp
  · exact s4.2

/-- Witness of C13: the scenario itself, nine bytes then one byte written, six
bytes then one byte drained, on the wrapped buffer described by its occupancy;
the occupancies are 9, 10, 4 and 3. -/
theorem scenario_A_witness :
    ((((NewWatermarkBuffer occupancyBuffer 16 BufferWatermarkListener.fresh).SetWaterMarks
        4 8).runOps [Op.Write [1, 2, 3, 4, 5, 6, 7, 8, 9]]).Len = 9 ∧
      (((NewWatermarkBuffer occupancyBuffer 16 BufferWatermarkListener.fresh).SetWaterMarks
        4 8).runOps [Op.Write [1, 2, 3, 4, 5, 6, 7, 8, 9], Op.Write [10]]).Len = 10 ∧
      (((NewWatermarkBuffer occupancyBuffer 16 BufferWatermarkListener.fresh).SetWaterMarks
        4 8).runOps [Op.Write [1, 2, 3, 4, 5, 6, 7, 8, 9], Op.Write [10],
          Op.Drain 6]).Len = 4 ∧
      (((NewWatermarkBuffer occupancyBuffer 16 BufferWatermarkListener.fresh).SetWaterMarks
        4 8).runOps [Op.Write [1, 2, 3, 4, 5, 6, 7, 8, 9], Op.Write [10], Op.Drain 6,
          Op.Drain 1]).Len = 3) ∧
    (((NewWatermarkBuffer occupancyBuffer 16 BufferWatermarkListener.fresh).SetWaterMarks
      4 8).runOps [Op.Write [1, 2, 3, 4, 5, 6, 7, 8, 9]]).delivered =
      [Notification.OnHighWatermark] ∧
    (((NewWatermarkBuffer occupancyBuffer 16 BufferWatermarkListener.fresh).SetWaterMarks
      4 8).runOps [Op.Write [1, 2, 3, 4, 5, 6, 7, 8, 9], Op.Write [10]]).delivered =
      [Notification.OnHighWatermark] ∧
    (((NewWatermarkBuffer occupancyBuffer 16 BufferWatermarkListener.fresh).SetWaterMarks
      4 8).runOps [Op.Write [1, 2, 3, 4, 5, 6, 7, 8, 9], Op.Write [10],
        Op.Drain 6]).delivered = [Notification.OnHighWatermark] ∧
    (((NewWatermarkBuffer occupancyBuffer 16 BufferWatermarkListener.fresh).SetWaterMarks
      4 8).runOps [Op.Write [1, 2, 3, 4, 5, 6, 7, 8, 9], Op.Write [10], Op.Drain 6,
        Op.Drain 1]).delivered =
      [Notification.OnHighWatermark, Notification.OnLowWatermark] ∧
    (((NewWatermarkBuffer occupancyBuffer 16 BufferWatermarkListener.fresh).SetWaterMarks
      4 8).runOps [Op.Write [1, 2, 3, 4, 5, 6, 7, 8, 9], Op.Write [10], Op.Drain 6,
        Op.Drain 1]).aboveHighWatermarkCalled = false :=
  ⟨⟨by decide, by decide, by decide, by decide⟩,
    scenario_A occupancyBuffer BufferWatermarkListener.fresh [1, 2, 3, 4, 5, 6, 7, 8, 9] [10]
      (by decide) (by decide) (by decide)⟩

/-- C14. No retroactive detection: on every state whose flag is clear, every
shrink call delivers nothing and leaves the flag clear, whatever the occupancy
and the thresholds.  In particular a buffer built by `NewWatermarkBufferBytes`
and configured with thresholds (5, 10) delivers nothing on `Drain(1)`, and a
growth call that follows and leaves an occupancy of 32 bits above 10 delivers
`OnHighWatermark`. -/
theorem no_retroactive_detection (b : WatermarkBuffer M) :
    (∀ o : Op M, o.isShrink = true → b.aboveHighWatermarkCalled = false →
      (b.call o).1.delivered = b.delivered ∧
      (b.call o).1.aboveHighWatermarkCalled = false ∧
      (b.call o).1 = { b with IoBuffer := (M.delegate b.IoBuffer o).1 }) ∧
    (∀ (bytes : List UInt8) (l : BufferWatermarkListener) (g : Op M),
      g.isGrowth = true →
      (((NewWatermarkBufferBytes M bytes l).SetWaterMarks 5 10).runOps
        [Op.Drain 1, g]).Fits →
      10 < (((NewWatermarkBufferBytes M bytes l).SetWaterMarks 5 10).runOps
        [Op.Drain 1, g]).Len →
      (((NewWatermarkBufferBytes M bytes l).SetWaterMarks 5 10).runOps
        [Op.Drain 1]).delivered = l.delivered ∧
      (((NewWatermarkBufferBytes M bytes l).SetWaterMarks 5 10).runOps
        [Op.Drain 1]).aboveHighWatermarkCalled = false ∧
      (((NewWatermarkBufferBytes M bytes l).SetWaterMarks 5 10).runOps
        [Op.Drain 1, g]).delivered = l.delivered ++ [Notification.OnHighWatermark]) := by
  constructor
  · intro o hs hflag
    have h := shrink_call_of_flag_clear b o hs hflag
    refine ⟨?_, ?_, h⟩
    · rw [h]; rfl
    · rw [h]; exact hflag
  · intro bytes l g hg hfit habove
    generalize hb0 : (NewWatermarkBufferBytes M bytes l).SetWaterMarks 5 10 = b0 at *
    have e0 : b0.highWatermark = 10 ∧ b0.aboveHighWatermarkCalled = false ∧
        b0.delivered = l.delivered := by
      rw [← hb0]; exact ⟨rfl, rfl, rfl⟩
    simp only [runOps] at hfit habove ⊢
    have s1 := shrink_call_of_flag_clear b0 (Op.Drain 1) rfl e0.2.1
    have d1 : (b0.call (Op.Drain 1)).1.delivered = b0.delivered := by rw [s1]; rfl
    have g1 : (b0.call (Op.Drain 1)).1.aboveHighWatermarkCalled = false := by
      rw [s1]; exact e0.2.1
    have t1 : (b0.call (Op.Drain 1)).1.highWatermark = 10 := by
      rw [s1]; exact e0.1
    clear s1
    generalize (b0.call (Op.Drain 1)).1 = b1 at *
    have f2 := call_frame b1 g
    have s2 := growth_call_fires b1 g hg (by rw [t1]; decide) g1 hfit
      (by rw [f2.2.2, t1]; exact habove)
    refine ⟨?_, g1, ?_⟩
    · rw [d1, e0.2.2]
    · rw [s2.1, d1, e0.2.2]

/-- Witness of C14: Scenario B, a buffer built from 20 bytes with thresholds
(5, 10); `Drain(1)` leaves 19 bytes and delivers nothing, then `AppendByte`
leaves 20 bytes and delivers `OnHighWatermark`. -/
theorem no_retroactive_detection_witness :
    ((Op.AppendByte 0 : Op occupancyBuffer).isGrowth = true ∧
      (((NewWatermarkBufferBytes occupancyBuffer (List.replicate 20 0)
        BufferWatermarkListener.fresh).SetWaterMarks 5 10).runOps
        [Op.Drain 1, Op.AppendByte 0]).Fits ∧
      10 < (((NewWatermarkBufferBytes occupancyBuffer (List.replicate 20 0)
        BufferWatermarkListener.fresh).SetWaterMarks 5 10).runOps
        [Op.Drain 1, Op.AppendByte 0]).Len) ∧
    ((NewWatermarkBufferBytes occupancyBuffer (List.replicate 20 0)
      BufferWatermarkListener.fresh).SetWaterMarks 5 10).Len = 20 ∧
    (((NewWatermarkBufferBytes occupancyBuffer (List.replicate 20 0)
      BufferWatermarkListener.fresh).SetWaterMarks 5 10).runOps [Op.Drain 1]).Len = 19 ∧
    (((NewWatermarkBufferBytes occupancyBuffer (List.replicate 20 0)
      BufferWatermarkListener.fresh).SetWaterMarks 5 10).runOps
      [Op.Drain 1]).delivered = [] ∧
    (((NewWatermarkBufferBytes occupancyBuffer (List.replicate 20 0)
      BufferWatermarkListener.fresh).SetWaterMarks 5 10).runOps
      [Op.Drain 1, Op.AppendByte 0]).delivered = [Notification.OnHighWatermark] :=
  have h := (no_retroactive_detection
    ((NewWatermarkBufferBytes occupancyBuffer (List.replicate 20 0)
      BufferWatermarkListener.fresh).SetWaterMarks 5 10)).2 (List.replicate 20 0)
    BufferWatermarkListener.fresh (Op.AppendByte 0) (by decide) (by decide) (by decide)
  ⟨⟨by decide, by decide, by decide⟩, by decide, by decide, h.1, h.2.2⟩

/-! ## The guard of the low check -/

theorem checkLowWatermarkSimplified_skip (b : WatermarkBuffer M)
    (h : b.aboveHighWatermarkCalled = false ∨ uint32 b.Len ≥ b.lowWatermark) :
    b.checkLowWatermarkSimplified = b := by
  unfold checkLowWatermarkSimplified
  rw [if_pos]
  simp only [Bool.or_eq_true, Bool.not_eq_true', decide_eq_true_eq]
  exact h

theorem checkLowWatermarkSimplified_fire (b : WatermarkBuffer M)
    (h : b.aboveHighWatermarkCalled = true ∧ uint32 b.Len < b.lowWatermark) :
    b.checkLowWatermarkSimplified =
      { b with
        aboveHighWatermarkCalled := false
        watermarkListener := b.watermarkListener.OnLowWatermark } := by
  obtain ⟨h1, h2⟩ := h
  unfold checkLowWatermarkSimplified
  rw [if_neg]
  simp only [h1, Bool.not_true, Bool.false_or, decide_eq_true_eq]
  omega

/-- A state differs from the state that has received one more
`OnLowWatermark`. -/
theorem fired_low_ne (b : WatermarkBuffer M) :
    ({ b with
        aboveHighWatermarkCalled := false
        watermarkListener := b.watermarkListener.OnLowWatermark } : WatermarkBuffer M) ≠ b := by
  intro h
  have h1 := congrArg (fun x : WatermarkBuffer M => x.watermarkListener.delivered.length) h
  simp [BufferWatermarkListener.OnLowWatermark] at h1

/-- C15. The `highWatermark > 0` guard of `checkLowWatermark` against the check
without it: the two agree on every state with `highWatermark > 0` and on every
state with the flag clear; they differ exactly on the states with the flag set,
`highWatermark = 0` and a length at or above `lowWatermark`; and such a state
is reached by `SetWaterMarks(5, 0)` from a state with the flag set, where the
source delivers `OnLowWatermark` and the simplified check delivers nothing. -/
theorem guard_redundancy (b : WatermarkBuffer M) :
    (0 < b.highWatermark → b.checkLowWatermark = b.checkLowWatermarkSimplified) ∧
    (b.aboveHighWatermarkCalled = false →
      b.checkLowWatermark = b.checkLowWatermarkSimplified) ∧
    (b.checkLowWatermark ≠ b.checkLowWatermarkSimplified ↔
      (b.aboveHighWatermarkCalled = true ∧ b.highWatermark = 0 ∧
        uint32 b.Len ≥ b.lowWatermark)) ∧
    (((stateOf 20 5 10 true [Notification.OnHighWatermark]).SetWaterMarks
        5 0).checkLowWatermark.delivered =
        [Notification.OnHighWatermark, Notification.OnLowWatermark] ∧
      ((stateOf 20 5 10 true [Notification.OnHighWatermark]).SetWaterMarks
        5 0).checkLowWatermarkSimplified.delivered = [Notification.OnHighWatermark]) := by
  have key : ¬ (b.aboveHighWatermarkCalled = true ∧ b.highWatermark = 0 ∧
      uint32 b.Len ≥ b.lowWatermark) →
      b.checkLowWatermark = b.checkLowWatermarkSimplified := by
    intro hn
    by_cases hflag : b.aboveHighWatermarkCalled = true
    · by_cases hge : uint32 b.Len ≥ b.lowWatermark
      · have hpos : b.highWatermark > 0 := by
          by_contra h0
          exact hn ⟨hflag, by omega, hge⟩
        rw [checkLowWatermark_skip b (Or.inr ⟨hpos, hge⟩),
          checkLowWatermarkSimplified_skip b (Or.inr hge)]
      · rw [checkLowWatermark_fire b ⟨hflag, fun h => hge h.2⟩,
          checkLowWatermarkSimplified_fire b ⟨hflag, by omega⟩]
    · have hclear : b.aboveHighWatermarkCalled = false := by simpa using hflag
      rw [checkLowWatermark_skip b (Or.inl hclear),
        checkLowWatermarkSimplified_skip b (Or.inl hclear)]
  refine ⟨fun hpos => key (fun h => by omega), fun hclear => key (fun h => ?_), ⟨?_, ?_⟩,
    by decide, by decide⟩
  · rw [hclear] at h
    exact Bool.noConfusion h.1
  · intro hne
    by_contra hn
    exact hne (key hn)
  · intro h
    rw [checkLowWatermark_fire b ⟨h.1, fun h' => by omega⟩,
      checkLowWatermarkSimplified_skip b (Or.inr h.2.2)]
    exact fired_low_ne b

/-- Witness of C15: with thresholds (5, 10), the flag set and four bytes held,
both checks deliver `OnLowWatermark`. -/
theorem guard_redundancy_witness :
    0 < (stateOf 4 5 10 true [Notification.OnHighWatermark]).highWatermark ∧
    (stateOf 4 5 10 true [Notification.OnHighWatermark]).checkLowWatermark =
      (stateOf 4 5 10 true [Notification.OnHighWatermark]).checkLowWatermarkSimplified ∧
    (stateOf 4 5 10 true [Notification.OnHighWatermark]).checkLowWatermarkSimplified.delivered
      = [Notification.OnHighWatermark, Notification.OnLowWatermark] :=
  ⟨by decide,
    (guard_redundancy (stateOf 4 5 10 true [Notification.OnHighWatermark])).1 (by decide),
    by decide⟩

/-! ## Alternation of the notifications -/

theorem other_other (n : Notification) : n.other.other = n := by
  cases n <;> rfl

/-- Alternation of a list extended at its end. -/
theorem alternatesFrom_concat (first : Notification) (l : List Notification)
    (x : Notification) :
    alternatesFrom first (l ++ [x]) =
      (alternatesFrom first l &&
        decide (x = if l.length % 2 = 0 then first else first.other)) := by
  induction l generalizing first with
  | nil => simp [alternatesFrom]
  | cons y l ih =>
    simp only [List.cons_append, alternatesFrom, ih, List.length_cons]
    rcases Nat.mod_two_eq_zero_or_one l.length with h | h
    · have h' : (l.length + 1) % 2 = 1 := by omega
      simp [h, h', Bool.and_assoc]
      rw [ih]
      simp [h]
    · have h' : (l.length + 1) % 2 = 0 := by omega
      simp [h, h', other_other, Bool.and_assoc]
      rw [ih]
      simp [h, other_other]

theorem edgeTriggered_checkHighWatermark (b : WatermarkBuffer M) (h : EdgeTriggered b) :
    EdgeTriggered b.checkHighWatermark := by
  rcases checkHighWatermark_cases b with hs | ⟨hflag, _, hf⟩
  · rw [hs]; exact h
  · obtain ⟨h1, h2, h3⟩ := h
    have heven : b.delivered.length % 2 = 0 := by
      have : ¬ b.delivered.length % 2 = 1 := fun ho => by
        have := h2.mpr ho
        rw [hflag] at this
        exact Bool.noConfusion this
      omega
    rw [hf]
    unfold EdgeTriggered
    simp only [delivered, BufferWatermarkListener.OnHighWatermark] at h1 h3 heven ⊢
    refine ⟨?_, ?_, ?_⟩
    · rw [alternatesFrom_concat, h1, heven]
      simp
    · simp only [List.length_append, List.length_singleton, true_iff]
      omega
    · rw [hflag] at h3
      simp only [List.count_append, if_true]
      simp at h3 ⊢
      omega

theorem edgeTriggered_checkLowWatermark (b : WatermarkBuffer M) (h : EdgeTriggered b) :
    EdgeTriggered b.checkLowWatermark := by
  rcases checkLowWatermark_cases b with hs | ⟨hflag, hf⟩
  · rw [hs]; exact h
  · obtain ⟨h1, h2, h3⟩ := h
    have hodd : b.delivered.length % 2 = 1 := h2.mp hflag
    rw [hf]
    unfold EdgeTriggered
    simp only [delivered, BufferWatermarkListener.OnLowWatermark] at h1 h3 hodd ⊢
    refine ⟨?_, ?_, ?_⟩
    · rw [alternatesFrom_concat, h1]
      have hne : ¬ b.watermarkListener.delivered.length % 2 = 0 := by omega
      simp [hne, Notification.other]
    · simp only [List.length_append, List.length_singleton]
      constructor
      · intro hc
        exact Bool.noConfusion hc
      · intro hc
        omega
    · rw [hflag] at h3
      simp only [List.count_append]
      simp at h3 ⊢
      omega

theorem edgeTriggered_step (b : WatermarkBuffer M) (c : Call M) (h : EdgeTriggered b) :
    EdgeTriggered (b.step c) := by
  cases c with
  | op o =>
    show EdgeTriggered (b.call o).1
    rw [call_state]
    have h' : EdgeTriggered
        ({ b with IoBuffer := (M.delegate b.IoBuffer o).1 } : WatermarkBuffer M) := h
    cases o.checkAfter
    · exact edgeTriggered_checkLowWatermark _ h'
    · exact edgeTriggered_checkHighWatermark _ h'
  | SetWaterMark w => exact h
  | SetWaterMarks lo hi => exact h

theorem edgeTriggered_run (cs : List (Call M)) (b : WatermarkBuffer M)
    (h : EdgeTriggered b) : EdgeTriggered (b.run cs) := by
  induction cs generalizing b with
  | nil => exact h
  | cons c cs ih => exact ih _ (edgeTriggered_step b c h)

theorem edgeTriggered_of_fresh (b : WatermarkBuffer M) (h : FreshlyConstructed b) :
    EdgeTriggered b := by
  rcases h with ⟨c, rfl⟩ | ⟨s, rfl⟩ | ⟨bytes, rfl⟩
  · simp [EdgeTriggered, NewWatermarkBuffer, delivered, BufferWatermarkListener.fresh,
      alternatesFrom]
  · simp [EdgeTriggered, NewWatermarkBufferString, delivered, BufferWatermarkListener.fresh,
      alternatesFrom]
  · simp [EdgeTriggered, NewWatermarkBufferBytes, delivered, BufferWatermarkListener.fresh,
      alternatesFrom]

/-- What one call of the public surface delivers: nothing or one
notification. -/
theorem step_delivered (b : WatermarkBuffer M) (c : Call M) :
    (b.step c).delivered = b.delivered ∨
    (b.step c).delivered = b.delivered ++ [Notification.OnHighWatermark] ∨
    (b.step c).delivered = b.delivered ++ [Notification.OnLowWatermark] := by
  cases c with
  | op o =>
    show (b.call o).1.delivered = _ ∨ (b.call o).1.delivered = _ ∨ (b.call o).1.delivered = _
    rcases call_delivered b o with h | h
    · exact Or.inl h
    · cases hc : o.checkAfter
      · rw [hc] at h; exact Or.inr (Or.inr h)
      · rw [hc] at h; exact Or.inr (Or.inl h)
  | SetWaterMark w => exact Or.inl rfl
  | SetWaterMarks lo hi => exact Or.inl rfl

/-- C16. Edge-triggered alternation: after every sequence of mutating and
configuration calls on a buffer built by one of the three constructors with a
listener that has received nothing, the notifications delivered alternate
`OnHighWatermark`, `OnLowWatermark`, `OnHighWatermark`, ..., starting with
`OnHighWatermark`; the number of high notifications is the number of low ones
or one more; and any further call delivers at most one notification. -/
theorem edge_triggered_alternation (b : WatermarkBuffer M) (hfresh : FreshlyConstructed b)
    (cs : List (Call M)) :
    alternatesFrom Notification.OnHighWatermark (b.run cs).delivered = true ∧
    ((b.run cs).delivered.count Notification.OnHighWatermark =
        (b.run cs).delivered.count Notification.OnLowWatermark ∨
      (b.run cs).delivered.count Notification.OnHighWatermark =
        (b.run cs).delivered.count Notification.OnLowWatermark + 1) ∧
    (∀ c : Call M,
      ((b.run cs).step c).delivered = (b.run cs).delivered ∨
      ((b.run cs).step c).delivered =
        (b.run cs).delivered ++ [Notification.OnHighWatermark] ∨
      ((b.run cs).step c).delivered =
        (b.run cs).delivered ++ [Notification.OnLowWatermark]) := by
  obtain ⟨h1, _, h3⟩ := edgeTriggered_run cs b (edgeTriggered_of_fresh b hfresh)
  refine ⟨h1, ?_, fun c => step_delivered _ c⟩
  by_cases hflag : (b.run cs).aboveHighWatermarkCalled = true
  · right; rw [h3, if_pos hflag]
  · left; rw [h3, if_neg hflag]; rfl

/-- Witness of C16: a buffer from `NewWatermarkBuffer`, thresholds (4, 8), then
writes and drains that cross the high mark, the low mark and the high mark
again. -/
theorem edge_triggered_alternation_witness :
    FreshlyConstructed
      (NewWatermarkBuffer occupancyBuffer 16 BufferWatermarkListener.fresh) ∧
    ((NewWatermarkBuffer occupancyBuffer 16 BufferWatermarkListener.fresh).run
      [Call.SetWaterMarks 4 8, Call.op (Op.Write [1, 2, 3, 4, 5, 6, 7, 8, 9]),
        Call.op (Op.AppendByte 10), Call.op (Op.Drain 7), Call.SetWaterMark 2,
        Call.op (Op.AppendByte 11)]).delivered =
      [Notification.OnHighWatermark, Notification.OnLowWatermark,
        Notification.OnHighWatermark] ∧
    alternatesFrom Notification.OnHighWatermark
      ((NewWatermarkBuffer occupancyBuffer 16 BufferWatermarkListener.fresh).run
        [Call.SetWaterMarks 4 8, Call.op (Op.Write [1, 2, 3, 4, 5, 6, 7, 8, 9]),
          Call.op (Op.AppendByte 10), Call.op (Op.Drain 7), Call.SetWaterMark 2,
          Call.op (Op.AppendByte 11)]).delivered = true :=
  ⟨Or.inl ⟨16, rfl⟩, by decide,
    (edge_triggered_alternation
      (NewWatermarkBuffer occupancyBuffer 16 BufferWatermarkListener.fresh)
      (Or.inl ⟨16, rfl⟩)
      [Call.SetWaterMarks 4 8, Call.op (Op.Write [1, 2, 3, 4, 5, 6, 7, 8, 9]),
        Call.op (Op.AppendByte 10), Call.op (Op.Drain 7), Call.SetWaterMark 2,
        Call.op (Op.AppendByte 11)]).1⟩

/-! ## Configuration, hysteresis, zero low watermark -/

/-- C17. `SetWaterMarks` and `SetWaterMark` change only `lowWatermark` and
`highWatermark`: no notification is delivered, no check runs, the flag and the
wrapped buffer are unchanged; the next mutating call runs its check with the
new thresholds.  So a buffer holding 20 bytes stays silent when its thresholds
become (5, 10) and reports the crossing on the next growth call, and a buffer
holding 3 bytes with the flag set stays silent when its thresholds become
(5, 10) and reports on the next shrink call. -/
theorem configuration_frame (b : WatermarkBuffer M) (lo hi w : Nat) :
    (b.SetWaterMarks lo hi = { b with lowWatermark := lo, highWatermark := hi } ∧
      (b.SetWaterMarks lo hi).lowWatermark = lo ∧
      (b.SetWaterMarks lo hi).highWatermark = hi ∧
      (b.SetWaterMarks lo hi).delivered = b.delivered ∧
      (b.SetWaterMarks lo hi).aboveHighWatermarkCalled = b.aboveHighWatermarkCalled ∧
      (b.SetWaterMarks lo hi).IoBuffer = b.IoBuffer) ∧
    (b.SetWaterMark w = { b with lowWatermark := w / 2, highWatermark := w } ∧
      (b.SetWaterMark w).delivered = b.delivered ∧
      (b.SetWaterMark w).aboveHighWatermarkCalled = b.aboveHighWatermarkCalled ∧
      (b.SetWaterMark w).IoBuffer = b.IoBuffer) ∧
    (∀ o : Op M,
      ((b.SetWaterMarks lo hi).call o).1 =
        WatermarkBuffer.runCheck
          { b with
            IoBuffer := (M.delegate b.IoBuffer o).1
            lowWatermark := lo
            highWatermark := hi } o.checkAfter) ∧
    (((stateOf 20 0 0 false []).SetWaterMarks 5 10).delivered = [] ∧
      ((stateOf 20 0 0 false []).SetWaterMarks 5 10).aboveHighWatermarkCalled = false ∧
      (((stateOf 20 0 0 false []).SetWaterMarks 5 10).call (Op.AppendByte 0)).1.delivered =
        [Notification.OnHighWatermark]) ∧
    (((stateOf 3 1 10 true [Notification.OnHighWatermark]).SetWaterMarks 5 10).delivered =
        [Notification.OnHighWatermark] ∧
      ((stateOf 3 1 10 true [Notification.OnHighWatermark]).SetWaterMarks
        5 10).aboveHighWatermarkCalled = true ∧
      (((stateOf 3 1 10 true [Notification.OnHighWatermark]).SetWaterMarks 5 10).call
        (Op.Drain 1)).1.delivered =
        [Notification.OnHighWatermark, Notification.OnLowWatermark]) := by
  refine ⟨⟨rfl, rfl, rfl, rfl, rfl, rfl⟩, ⟨rfl, rfl, rfl, rfl⟩, fun o => ?_,
    ⟨by decide, by decide, by decide⟩, ⟨by decide, by decide, by decide⟩⟩
  rw [call_state]
  rfl

/-- C18. Hysteresis consistency: with `0 < highWatermark` and
`lowWatermark ≤ highWatermark`, running `checkHighWatermark` then
`checkLowWatermark`, or `checkLowWatermark` then `checkHighWatermark`, on the
same length delivers at most one notification; with thresholds (20, 10) and 15
bytes held both checks fire, in either order. -/
theorem hysteresis_consistency (b : WatermarkBuffer M)
    (hhigh : 0 < b.highWatermark) (hle : b.lowWatermark ≤ b.highWatermark) :
    (b.checkHighWatermark.checkLowWatermark.delivered = b.delivered ∨
      b.checkHighWatermark.checkLowWatermark.delivered =
        b.delivered ++ [Notification.OnHighWatermark] ∨
      b.checkHighWatermark.checkLowWatermark.delivered =
        b.delivered ++ [Notification.OnLowWatermark]) ∧
    (b.checkLowWatermark.checkHighWatermark.delivered = b.delivered ∨
      b.checkLowWatermark.checkHighWatermark.delivered =
        b.delivered ++ [Notification.OnHighWatermark] ∨
      b.checkLowWatermark.checkHighWatermark.delivered =
        b.delivered ++ [Notification.OnLowWatermark]) ∧
    ((stateOf 15 20 10 false []).checkHighWatermark.checkLowWatermark.delivered =
        [Notification.OnHighWatermark, Notification.OnLowWatermark] ∧
      (stateOf 15 20 10 true
        [Notification.OnHighWatermark]).checkLowWatermark.checkHighWatermark.delivered =
        [Notification.OnHighWatermark, Notification.OnLowWatermark,
          Notification.OnHighWatermark]) := by
  refine ⟨?_, ?_, by decide, by decide⟩
  · by_cases hc : b.aboveHighWatermarkCalled = false ∧ b.highWatermark ≠ 0 ∧
        b.highWatermark < uint32 b.Len
    · have hf := checkHighWatermark_fire b hc
      have hs := checkLowWatermark_skip
        ({ b with
          aboveHighWatermarkCalled := true
          watermarkListener := b.watermarkListener.OnHighWatermark } : WatermarkBuffer M)
        (Or.inr ⟨hhigh, by
          show uint32 b.Len ≥ b.lowWatermark
          omega⟩)
      right; left
      rw [hf, hs]
      rfl
    · rw [checkHighWatermark_skip b hc]
      rcases checkLowWatermark_cases b with h | ⟨_, h⟩
      · left; rw [h]
      · right; right; rw [h]; rfl
  · by_cases hc : b.aboveHighWatermarkCalled = true ∧
        ¬ (b.highWatermark > 0 ∧ uint32 b.Len ≥ b.lowWatermark)
    · have hf := checkLowWatermark_fire b hc
      have hlt : uint32 b.Len < b.lowWatermark := by
        by_contra hn
        exact hc.2 ⟨hhigh, by omega⟩
      have hs := checkHighWatermark_skip
        ({ b with
          aboveHighWatermarkCalled := false
          watermarkListener := b.watermarkListener.OnLowWatermark } : WatermarkBuffer M)
        (fun h => by
          have h3 : b.highWatermark < uint32 b.Len := h.2.2
          omega)
      right; right
      rw [hf, hs]
      rfl
    · have hs : b.checkLowWatermark = b := by
        apply checkLowWatermark_skip
        by_cases hflag : b.aboveHighWatermarkCalled = true
        · right
          by_contra hn
          exact hc ⟨hflag, hn⟩
        · left; simpa using hflag
      rw [hs]
      rcases checkHighWatermark_cases b with h | ⟨_, _, h⟩
      · left; rw [h]
      · right; left; rw [h]; rfl

/-- Witness of C18: thresholds (5, 10), the flag clear and 11 bytes held; the
high check fires and the low check that follows does not. -/
theorem hysteresis_consistency_witness :
    (0 < (stateOf 11 5 10 false []).highWatermark ∧
      (stateOf 11 5 10 false []).lowWatermark ≤ (stateOf 11 5 10 false []).highWatermark) ∧
    (stateOf 11 5 10 false []).checkHighWatermark.checkLowWatermark.delivered =
      [Notification.OnHighWatermark] ∧
    ((stateOf 11 5 10 false []).checkLowWatermark.checkHighWatermark.delivered =
        (stateOf 11 5 10 false []).delivered ∨
      (stateOf 11 5 10 false []).checkLowWatermark.checkHighWatermark.delivered =
        (stateOf 11 5 10 false []).delivered ++ [Notification.OnHighWatermark] ∨
      (stateOf 11 5 10 false []).checkLowWatermark.checkHighWatermark.delivered =
        (stateOf 11 5 10 false []).delivered ++ [Notification.OnLowWatermark]) :=
  ⟨⟨by decide, by decide⟩, by decide,
    (hysteresis_consistency (stateOf 11 5 10 false []) (by decide) (by decide)).2.1⟩

/-- With the flag set, checking enabled and `lowWatermark = 0`, a mutating
call only moves the wrapped buffer, whatever its length. -/
theorem call_of_zero_low (b : WatermarkBuffer M) (o : Op M)
    (hlow : b.lowWatermark = 0) (hhigh : 0 < b.highWatermark)
    (hflag : b.aboveHighWatermarkCalled = true) :
    (b.call o).1 = { b with IoBuffer := (M.delegate b.IoBuffer o).1 } := by
  rw [call_state]
  cases o.checkAfter
  · exact checkLowWatermark_skip _ (Or.inr ⟨hhigh, by
      show uint32 _ ≥ b.lowWatermark
      omega⟩)
  · exact checkHighWatermark_skip _ (fun h => by
      have h1 : b.aboveHighWatermarkCalled = false := h.1
      rw [hflag] at h1
      exact Bool.noConfusion h1)

/-- C19. Zero low watermark never resumes: `SetWaterMark(1)` sets thresholds
(0, 1); and from any state with `lowWatermark = 0`, `highWatermark > 0` and the
flag set, no sequence of mutating calls, over any wrapped buffer and whatever
the occupancy becomes, delivers any notification: the flag stays set and the
thresholds stay as they are. -/
theorem zero_low_never_resumes (b : WatermarkBuffer M) :
    ((b.SetWaterMark 1).lowWatermark = 0 ∧ (b.SetWaterMark 1).highWatermark = 1) ∧
    (∀ os : List (Op M),
      b.lowWatermark = 0 → 0 < b.highWatermark → b.aboveHighWatermarkCalled = true →
        (b.runOps os).delivered = b.delivered ∧
        (b.runOps os).aboveHighWatermarkCalled = true ∧
        (b.runOps os).lowWatermark = 0 ∧
        (b.runOps os).highWatermark = b.highWatermark) := by
  refine ⟨⟨rfl, rfl⟩, fun os => ?_⟩
  induction os generalizing b with
  | nil => exact fun hlow _ hflag => ⟨rfl, hflag, hlow, rfl⟩
  | cons o os ih =>
    intro hlow hhigh hflag
    have h1 := call_of_zero_low b o hlow hhigh hflag
    have h2 := ih (b.call o).1 (by rw [h1]; exact hlow) (by rw [h1]; exact hhigh)
      (by rw [h1]; exact hflag)
    show ((b.call o).1.runOps os).delivered = _ ∧
      ((b.call o).1.runOps os).aboveHighWatermarkCalled = _ ∧
      ((b.call o).1.runOps os).lowWatermark = _ ∧ ((b.call o).1.runOps os).highWatermark = _
    rw [h2.1, h2.2.1, h2.2.2.1, h2.2.2.2, h1]
    exact ⟨rfl, rfl, rfl, rfl⟩

/-- Witness of C19: a buffer from `NewWatermarkBuffer` after `SetWaterMark(1)`
and a write of two bytes, which delivered `OnHighWatermark`; draining it to
empty, resetting it and reading from it deliver nothing more. -/
theorem zero_low_never_resumes_witness :
    ((((NewWatermarkBuffer occupancyBuffer 16 BufferWatermarkListener.fresh).SetWaterMark
        1).runOps [Op.Write [0, 1]]).lowWatermark = 0 ∧
      0 < (((NewWatermarkBuffer occupancyBuffer 16 BufferWatermarkListener.fresh).SetWaterMark
        1).runOps [Op.Write [0, 1]]).highWatermark ∧
      (((NewWatermarkBuffer occupancyBuffer 16 BufferWatermarkListener.fresh).SetWaterMark
        1).runOps [Op.Write [0, 1]]).aboveHighWatermarkCalled = true) ∧
    ((((NewWatermarkBuffer occupancyBuffer 16 BufferWatermarkListener.fresh).SetWaterMark
        1).runOps [Op.Write [0, 1]]).runOps
      [Op.Drain 2, Op.Reset, Op.Read [0]]).Len = 0 ∧
    ((((NewWatermarkBuffer occupancyBuffer 16 BufferWatermarkListener.fresh).SetWaterMark
        1).runOps [Op.Write [0, 1]]).runOps
      [Op.Drain 2, Op.Reset, Op.Read [0]]).delivered = [Notification.OnHighWatermark] :=
  ⟨⟨by decide, by decide, by decide⟩, by decide,
    ((zero_low_never_resumes
      (((NewWatermarkBuffer occupancyBuffer 16 BufferWatermarkListener.fresh).SetWaterMark
        1).runOps [Op.Write [0, 1]])).2 [Op.Drain 2, Op.Reset, Op.Read [0]]
      (by decide) (by decide) (by decide)).1.trans (by decide)⟩

end WatermarkBuffer

end Buffer
